import Mathlib

/-!
libspec: stat calculation and generation-3 record layout

A shallow embedding of `src/stat.c` (the generation 1-5 stat formulas) and of
the packed record declarations of `src/include/game_gba.h`.

Machine integers are natural numbers; every conversion to an unsigned C type
that the source performs is written out as a reduction modulo `2 ^ w`.
-/

namespace Libspec

/-! ## Machine integers -/

/-- Conversion to `uint8_t`. -/
def u8 (n : Nat) : Nat := n % 2 ^ 8

/-- Conversion to `uint16_t`. -/
def u16 (n : Nat) : Nat := n % 2 ^ 16

/-- Conversion to `uint32_t`. -/
def u32 (n : Nat) : Nat := n % 2 ^ 32

/-! ## `stat.c`: generation 1 and 2 -/

/-- The search loop of `gb_calc_ev`: `while(b * b < stat_exp) ++b;` on a
`uint8_t` counter `b`. The product is computed in `int` (no wraparound below
`255 * 255`), the increment wraps modulo 256. One unit of fuel is spent per
evaluation of the loop condition; `none` means the fuel ran out. -/
def gb_calc_ev_loop : Nat → Nat → Nat → Option Nat
  | 0, _, _ => none
  | fuel + 1, b, stat_exp =>
    if b * b < stat_exp then gb_calc_ev_loop fuel (u8 (b + 1)) stat_exp
    else some b

/-- The function `gb_calc_ev` of `stat.c`: 64 for `stat_exp >= 0xfe02`, else
the loop result shifted right by two, returned as `uint8_t`. -/
def gb_calc_ev (fuel stat_exp : Nat) : Option Nat :=
  if stat_exp ≥ 0xfe02 then some 64
  else (gb_calc_ev_loop fuel 0 stat_exp).map (fun b => u8 (b >>> 2))

/-- The function `gb_calc_base_stat` of `stat.c`:
`((((uint32_t)base_stat + iv) << 1) + gb_calc_ev(stat_exp)) * (uint32_t)level / 100`,
evaluated in `uint32_t` and returned as `uint16_t`. -/
def gb_calc_base_stat (fuel level base_stat iv stat_exp : Nat) : Option Nat :=
  (gb_calc_ev fuel stat_exp).map
    (fun e => u16 (u32 (u32 (u32 (u32 (base_stat + iv) <<< 1) + e) * level) / 100))

/-- The function `gb_calc_stat` of `stat.c`: `gb_calc_base_stat(...) + 5` as `uint16_t`. -/
def gb_calc_stat (fuel level base_stat iv stat_exp : Nat) : Option Nat :=
  (gb_calc_base_stat fuel level base_stat iv stat_exp).map (fun s => u16 (s + 5))

/-- The function `gb_calc_hp_stat` of `stat.c`:
`gb_calc_base_stat(...) + level + 10` as `uint16_t`. -/
def gb_calc_hp_stat (fuel level base_stat iv stat_exp : Nat) : Option Nat :=
  (gb_calc_base_stat fuel level base_stat iv stat_exp).map (fun s => u16 (s + level + 10))

/-! ## `stat.c`: generation 3, 4 and 5 -/

/-- Modelled from the spec: the enumeration `stat_nature_t` is declared in
`stat.h`, which is not among the sources. `stat.c` names two of its values,
`STAT_NATURE_POSITIVE` and `STAT_NATURE_NEGATIVE`, and compares against them
only; every other value of the enumeration is `other v`. -/
inductive stat_nature_t where
  | STAT_NATURE_POSITIVE : stat_nature_t
  | STAT_NATURE_NEGATIVE : stat_nature_t
  | other (v : Int) : stat_nature_t
  deriving DecidableEq, Repr

open stat_nature_t

/-- The function `gba_calc_base_stat` of `stat.c`:
`(((uint32_t)base_stat << 1) + iv + (ev >> 2)) * (uint32_t)level / 100`,
evaluated in `uint32_t` and returned as `uint16_t`. -/
def gba_calc_base_stat (level base_stat iv ev : Nat) : Nat :=
  u16 (u32 (u32 (u32 (u32 (base_stat <<< 1) + iv) + (ev >>> 2)) * level) / 100)

/-- The function `gba_calc_stat` of `stat.c`. The local `stat` is a `uint32_t`;
each `return` converts to `uint16_t`. -/
def gba_calc_stat (level base_stat iv ev : Nat) (nature : stat_nature_t) : Nat :=
  let stat := u32 (gba_calc_base_stat level base_stat iv ev + 5)
  if nature = STAT_NATURE_POSITIVE then u16 (u32 (stat * 90) / 100)
  else if nature = STAT_NATURE_NEGATIVE then u16 (u32 (stat * 110) / 100)
  else u16 stat

/-- The function `gba_calc_hp_stat` of `stat.c`:
`gba_calc_base_stat(...) + level + 10` as `uint16_t`. -/
def gba_calc_hp_stat (level base_stat iv ev : Nat) : Nat :=
  u16 (gba_calc_base_stat level base_stat iv ev + level + 10)

/-- The function `nds_calc_stat` of `stat.c` (generation 4). -/
def nds_calc_stat (level base_stat iv ev : Nat) (nature : stat_nature_t) : Nat :=
  gba_calc_stat level base_stat iv ev nature

/-- The function `nds_calc_hp_stat` of `stat.c` (generation 4). -/
def nds_calc_hp_stat (level base_stat iv ev : Nat) : Nat :=
  gba_calc_hp_stat level base_stat iv ev

/-- The function `dsi_calc_stat` of `stat.c` (generation 5). -/
def dsi_calc_stat (level base_stat iv ev : Nat) (nature : stat_nature_t) : Nat :=
  gba_calc_stat level base_stat iv ev nature

/-- The function `dsi_calc_hp_stat` of `stat.c` (generation 5). -/
def dsi_calc_hp_stat (level base_stat iv ev : Nat) : Nat :=
  gba_calc_hp_stat level base_stat iv ev

/-! ## `game_gba.h`: constants -/

/-- The size of an individual block in the pokemon structure. -/
def PK3_BLOCK_SIZE : Nat := 0xC

/-- The size of the `pk3_box_t` structure, the box storage structure. -/
def PK3_BOX_SIZE : Nat := 0x50

/-- The size of the `pk3_t` structure, the party storage structure. -/
def PK3_PARTY_SIZE : Nat := 0x64

/-- The length of a pokemon's nickname. -/
def PK3_NICKNAME_LENGTH : Nat := 10

/-- The length of a pokemon's original trainer's name. -/
def PK3_OT_NAME_LENGTH : Nat := 7

/-! ## `game_gba.h`: declarations under `#pragma pack(push, 1)` -/

mutual
/-- The C object types the record declarations of `game_gba.h` are built from. -/
inductive CType where
  | uint8_t : CType
  | uint16_t : CType
  | uint32_t : CType
  | char8_t : CType
  | array (elem : CType) (len : Nat) : CType
  | struct (members : List Member) : CType
  | union (members : List Member) : CType
/-- A member declaration: an ordinary member `ty name;` or a bit-field
`ty name : width;`. An unnamed member has the empty name. -/
inductive Member where
  | field (ty : CType) (name : String) : Member
  | bits (ty : CType) (name : String) (width : Nat) : Member
end

open CType Member

/-- Modelled from the spec: the typedef `char8_t` of the GBA text fields is
declared outside the sources; the specification describes GBA text as a
single-byte custom table, one byte per character. -/
def sizeof_char8_t : Nat := 1

mutual
/-- Size in bytes of a type declared under `#pragma pack(push, 1)`: a structure
is its members in declaration order, rounded up to a whole byte; a union is its
largest member. -/
def sizeof : CType → Nat
  | .uint8_t => 1
  | .uint16_t => 2
  | .uint32_t => 4
  | .char8_t => sizeof_char8_t
  | .array elem len => len * sizeof elem
  | .struct members => (struct_end members 0 + 7) / 8
  | .union members => union_size members
/-- Bit offset reached after laying out `members` from bit offset `off`: an
ordinary member starts at the next byte boundary (alignment 1), a bit-field
starts at the next free bit (packing inserts no padding between bit-fields). -/
def struct_end : List Member → Nat → Nat
  | [], off => off
  | .field ty _ :: rest, off => struct_end rest (((off + 7) / 8 + sizeof ty) * 8)
  | .bits _ _ width :: rest, off => struct_end rest (off + width)
/-- Size in bytes of the largest member of a union. -/
def union_size : List Member → Nat
  | [] => 0
  | .field ty _ :: rest => max (sizeof ty) (union_size rest)
  | .bits _ _ width :: rest => max ((width + 7) / 8) (union_size rest)
end

/-- Width in bits a member declaration asks for. -/
def member_bits : Member → Nat
  | .field ty _ => 8 * sizeof ty
  | .bits _ _ width => width

/-- The member list of a structure or union (empty for the other types). -/
def members_of : CType → List Member
  | .struct members => members
  | .union members => members
  | _ => []

/-- The declaration `pk3_marking_t`. -/
def pk3_marking_t : CType :=
  .struct [
    .bits .uint8_t "circle" 1,
    .bits .uint8_t "square" 1,
    .bits .uint8_t "triangle" 1,
    .bits .uint8_t "heart" 1,
    .bits .uint8_t "" 4]

/-- The declaration `pk3_effort_t`. -/
def pk3_effort_t : CType :=
  .struct [
    .field .uint8_t "hp",
    .field .uint8_t "atk",
    .field .uint8_t "def",
    .field .uint8_t "spd",
    .field .uint8_t "satk",
    .field .uint8_t "sdef"]

/-- The declaration `pk3_contest_t`. -/
def pk3_contest_t : CType :=
  .struct [
    .field .uint8_t "cool",
    .field .uint8_t "beauty",
    .field .uint8_t "cute",
    .field .uint8_t "smart",
    .field .uint8_t "tough",
    .field .uint8_t "sheen"]

/-- The declaration `pk3_pokerus_t`. -/
def pk3_pokerus_t : CType :=
  .struct [
    .bits .uint8_t "days" 4,
    .bits .uint8_t "strain" 4]

/-- The declaration `pk3_pp_up_t`. -/
def pk3_pp_up_t : CType :=
  .struct [
    .bits .uint8_t "move_0" 2,
    .bits .uint8_t "move_1" 2,
    .bits .uint8_t "move_2" 2,
    .bits .uint8_t "move_3" 2]

/-- The declaration `pk3_genes_t`. -/
def pk3_genes_t : CType :=
  .struct [
    .bits .uint8_t "hp" 5,
    .bits .uint8_t "atk" 5,
    .bits .uint8_t "def" 5,
    .bits .uint8_t "spd" 5,
    .bits .uint8_t "satk" 5,
    .bits .uint8_t "sdef" 5,
    .bits .uint8_t "" 2]

/-- The declaration `pk3_ribbon_t`. -/
def pk3_ribbon_t : CType :=
  .struct [
    .bits .uint8_t "cool_normal" 1,
    .bits .uint8_t "cool_super" 1,
    .bits .uint8_t "cool_hyper" 1,
    .bits .uint8_t "cool_master" 1,
    .bits .uint8_t "beauty_normal" 1,
    .bits .uint8_t "beauty_super" 1,
    .bits .uint8_t "beauty_hyper" 1,
    .bits .uint8_t "beauty_master" 1,
    .bits .uint8_t "cute_normal" 1,
    .bits .uint8_t "cute_super" 1,
    .bits .uint8_t "cute_hyper" 1,
    .bits .uint8_t "cute_master" 1,
    .bits .uint8_t "smart_normal" 1,
    .bits .uint8_t "smart_super" 1,
    .bits .uint8_t "smart_hyper" 1,
    .bits .uint8_t "smart_master" 1,
    .bits .uint8_t "tough_normal" 1,
    .bits .uint8_t "tough_super" 1,
    .bits .uint8_t "tough_hyper" 1,
    .bits .uint8_t "tough_master" 1,
    .bits .uint8_t "champion" 1,
    .bits .uint8_t "winning" 1,
    .bits .uint8_t "victory" 1,
    .bits .uint8_t "artist" 1,
    .bits .uint8_t "effort" 1,
    .bits .uint8_t "marine" 1,
    .bits .uint8_t "land" 1,
    .bits .uint8_t "sky" 1,
    .bits .uint8_t "country" 1,
    .bits .uint8_t "national" 1,
    .bits .uint8_t "earth" 1,
    .bits .uint8_t "world" 1]

/-- The unnamed header structure of `pk3_box_t`. -/
def pk3_box_header : CType :=
  .struct [
    .field .uint32_t "pid",
    .field (.union [
      .field .uint32_t "ot_fid",
      .field (.struct [
        .field .uint16_t "ot_id",
        .field .uint16_t "ot_sid"]) ""]) "",
    .field (.array .char8_t PK3_NICKNAME_LENGTH) "nickname",
    .field .uint8_t "language",
    .field (.struct [
      .bits .uint8_t "is_bad_egg" 1,
      .bits .uint8_t "has_species" 1,
      .bits .uint8_t "use_egg_name" 1,
      .bits .uint8_t "" 5]) "",
    .field (.array .char8_t PK3_OT_NAME_LENGTH) "ot_name",
    .field pk3_marking_t "markings",
    .field .uint16_t "checksum",
    .bits .uint16_t "" 16]

/-- Block A of `pk3_box_t`. -/
def pk3_block_a : CType :=
  .struct [
    .field .uint16_t "species",
    .field .uint16_t "held_item",
    .field .uint32_t "exp",
    .field pk3_pp_up_t "pp_up",
    .field .uint8_t "friendship",
    .bits .uint16_t "" 16]

/-- Block B of `pk3_box_t`. -/
def pk3_block_b : CType :=
  .struct [
    .field (.array .uint16_t 4) "move",
    .field (.array .uint8_t 4) "move_pp"]

/-- Block C of `pk3_box_t`. -/
def pk3_block_c : CType :=
  .struct [
    .field pk3_effort_t "ev",
    .field pk3_contest_t "contest"]

/-- Block D of `pk3_box_t`. -/
def pk3_block_d : CType :=
  .struct [
    .field pk3_pokerus_t "pokerus",
    .field .uint8_t "met_loc",
    .field (.struct [
      .bits .uint8_t "level_met" 7,
      .bits .uint8_t "game" 4,
      .bits .uint8_t "pokeball" 4,
      .bits .uint8_t "is_ot_female" 1]) "",
    .field (.union [
      .field pk3_genes_t "iv",
      .field (.struct [
        .bits .uint32_t "" 30,
        .bits .uint8_t "is_egg" 1,
        .bits .uint8_t "ability" 1]) ""]) "",
    .field pk3_ribbon_t "ribbon"]

/-- The unnamed data union of `pk3_box_t`: raw block access, or blocks A to D. -/
def pk3_box_data : CType :=
  .union [
    .field (.array (.array .uint8_t PK3_BLOCK_SIZE) 4) "block",
    .field (.struct [
      .field pk3_block_a "",
      .field pk3_block_b "",
      .field pk3_block_c "",
      .field pk3_block_d ""]) ""]

/-- The declaration `pk3_box_t`: the header followed by the data. -/
def pk3_box_t : CType :=
  .struct [
    .field pk3_box_header "",
    .field pk3_box_data ""]

/-- The declaration `pk3_status_t`. -/
def pk3_status_t : CType :=
  .struct [
    .bits .uint8_t "status_sleep" 3,
    .bits .uint8_t "status_poison" 1,
    .bits .uint8_t "status_burn" 1,
    .bits .uint8_t "status_freeze" 1,
    .bits .uint8_t "status_paralysis" 1,
    .bits .uint8_t "status_toxic" 1]

/-- The declaration `pk3_stats_t`. -/
def pk3_stats_t : CType :=
  .struct [
    .field .uint16_t "hp",
    .field .uint16_t "max_hp",
    .field .uint16_t "atk",
    .field .uint16_t "def",
    .field .uint16_t "spd",
    .field .uint16_t "satk",
    .field .uint16_t "sdef"]

/-- The declaration `pk3_party_t`. -/
def pk3_party_t : CType :=
  .struct [
    .field pk3_status_t "status",
    .bits .uint32_t "" 24,
    .field .uint8_t "level",
    .field .uint8_t "pokerus_time",
    .field pk3_stats_t "stats"]

/-- The declaration `pk3_t`. -/
def pk3_t : CType :=
  .struct [
    .field pk3_box_t "box",
    .field pk3_party_t "party"]

/-! ## `pokemon_data.h`: lookup tables -/

/-- Conversion to `int8_t`. -/
def i8 (n : Int) : Int := (n + 2 ^ 7) % 2 ^ 8 - 2 ^ 7

/-- Conversion to `int16_t`. -/
def i16 (n : Int) : Int := (n + 2 ^ 15) % 2 ^ 16 - 2 ^ 15

/-- One row `XX(id, token, nameCaps, name, hp, atk, def, spd, satk, sdef)` of
the list `SPECIES`. -/
structure species_row where
  id : Nat
  token : String
  nameCaps : String
  name : String
  hp : Nat
  atk : Nat
  def_ : Nat
  spd : Nat
  satk : Nat
  sdef : Nat
  deriving DecidableEq, Repr

/-- The list `SPECIES(XX)`. -/
def SPECIES : List species_row := [
  species_row.mk 1 "BULBASAUR" "BULBASAUR" "Bulbasaur" 45 49 49 45 65 65,
  species_row.mk 2 "IVYSAUR" "IVYSAUR" "Ivysaur" 60 62 63 60 80 80,
  species_row.mk 3 "VENUSAUR" "VENUSAUR" "Venusaur" 80 82 83 80 100 100,
  species_row.mk 4 "CHARMANDER" "CHARMANDER" "Charmander" 39 52 43 65 60 50,
  species_row.mk 5 "CHARMELEON" "CHARMELEON" "Charmeleon" 58 64 58 80 80 65,
  species_row.mk 6 "CHARIZARD" "CHARIZARD" "Charizard" 78 84 78 100 109 85,
  species_row.mk 7 "SQUIRTLE" "SQUIRTLE" "Squirtle" 44 48 65 43 50 64,
  species_row.mk 8 "WARTORTLE" "WARTORTLE" "Wartortle" 59 63 80 58 65 80,
  species_row.mk 9 "BLASTOISE" "BLASTOISE" "Blastoise" 79 83 100 78 85 105,
  species_row.mk 10 "CATERPIE" "CATERPIE" "Caterpie" 45 30 35 45 20 20,
  species_row.mk 11 "METAPOD" "METAPOD" "Metapod" 50 20 55 30 25 25,
  species_row.mk 12 "BUTTERFREE" "BUTTERFREE" "Butterfree" 60 45 50 70 80 80,
  species_row.mk 13 "WEEDLE" "WEEDLE" "Weedle" 40 35 30 50 20 20,
  species_row.mk 14 "KAKUNA" "KAKUNA" "Kakuna" 45 25 50 35 25 25,
  species_row.mk 15 "BEEDRILL" "BEEDRILL" "Beedrill" 65 80 40 75 45 80,
  species_row.mk 16 "PIDGEY" "PIDGEY" "Pidgey" 40 45 40 56 35 35,
  species_row.mk 17 "PIDGEOTTO" "PIDGEOTTO" "Pidgeotto" 63 60 55 71 50 50,
  species_row.mk 18 "PIDGEOT" "PIDGEOT" "Pidgeot" 83 80 75 91 70 70,
  species_row.mk 19 "RATTATA" "RATTATA" "Rattata" 30 56 35 72 25 35,
  species_row.mk 20 "RATICATE" "RATICATE" "Raticate" 55 81 60 97 50 70,
  species_row.mk 21 "SPEAROW" "SPEAROW" "Spearow" 40 60 30 70 31 31,
  species_row.mk 22 "FEAROW" "FEAROW" "Fearow" 65 90 65 100 61 61,
  species_row.mk 23 "EKANS" "EKANS" "Ekans" 35 60 44 55 40 54,
  species_row.mk 24 "ARBOK" "ARBOK" "Arbok" 60 85 69 80 65 79,
  species_row.mk 25 "PIKACHU" "PIKACHU" "Pikachu" 35 55 30 90 50 40,
  species_row.mk 26 "RAICHU" "RAICHU" "Raichu" 60 90 55 100 90 80,
  species_row.mk 27 "SANDSHREW" "SANDSHREW" "Sandshrew" 50 75 85 40 20 30,
  species_row.mk 28 "SANDSLASH" "SANDSLASH" "Sandslash" 75 100 110 65 45 55,
  species_row.mk 29 "NIDORANF" "NIDORAN♀" "Nidoran♀" 55 47 52 41 40 40,
  species_row.mk 30 "NIDORINA" "NIDORINA" "Nidorina" 70 62 67 56 55 55,
  species_row.mk 31 "NIDOQUEEN" "NIDOQUEEN" "Nidoqueen" 90 82 87 76 75 85,
  species_row.mk 32 "NIDORANM" "NIDORAN♂" "Nidoran♂" 46 57 40 50 40 40,
  species_row.mk 33 "NIDORINO" "NIDORINO" "Nidorino" 61 72 57 65 55 55,
  species_row.mk 34 "NIDOKING" "NIDOKING" "Nidoking" 81 92 77 85 85 75,
  species_row.mk 35 "CLEFAIRY" "CLEFAIRY" "Clefairy" 70 45 48 35 60 65,
  species_row.mk 36 "CLEFABLE" "CLEFABLE" "Clefable" 95 70 73 60 85 90,
  species_row.mk 37 "VULPIX" "VULPIX" "Vulpix" 38 41 40 65 50 65,
  species_row.mk 38 "NINETALES" "NINETALES" "Ninetales" 73 76 75 100 81 100,
  species_row.mk 39 "JIGGLYPUFF" "JIGGLYPUFF" "Jigglypuff" 115 45 20 20 45 25,
  species_row.mk 40 "WIGGLYTUFF" "WIGGLYTUFF" "Wigglytuff" 140 70 45 45 75 50,
  species_row.mk 41 "ZUBAT" "ZUBAT" "Zubat" 40 45 35 55 30 40,
  species_row.mk 42 "GOLBAT" "GOLBAT" "Golbat" 75 80 70 90 65 75,
  species_row.mk 43 "ODDISH" "ODDISH" "Oddish" 45 50 55 30 75 65,
  species_row.mk 44 "GLOOM" "GLOOM" "Gloom" 60 65 70 40 85 75,
  species_row.mk 45 "VILEPLUME" "VILEPLUME" "Vileplume" 75 80 85 50 100 90,
  species_row.mk 46 "PARAS" "PARAS" "Paras" 35 70 55 25 45 55,
  species_row.mk 47 "PARASECT" "PARASECT" "Parasect" 60 95 80 30 60 80,
  species_row.mk 48 "VENONAT" "VENONAT" "Venonat" 60 55 50 45 40 55,
  species_row.mk 49 "VENOMOTH" "VENOMOTH" "Venomoth" 70 65 60 90 90 75,
  species_row.mk 50 "DIGLETT" "DIGLETT" "Diglett" 10 55 25 95 35 45,
  species_row.mk 51 "DUGTRIO" "DUGTRIO" "Dugtrio" 35 80 50 120 50 70,
  species_row.mk 52 "MEOWTH" "MEOWTH" "Meowth" 40 45 35 90 40 40,
  species_row.mk 53 "PERSIAN" "PERSIAN" "Persian" 65 70 60 115 65 65,
  species_row.mk 54 "PSYDUCK" "PSYDUCK" "Psyduck" 50 52 48 55 65 50,
  species_row.mk 55 "GOLDUCK" "GOLDUCK" "Golduck" 80 82 78 85 95 80,
  species_row.mk 56 "MANKEY" "MANKEY" "Mankey" 40 80 35 70 35 45,
  species_row.mk 57 "PRIMEAPE" "PRIMEAPE" "Primeape" 65 105 60 95 60 70,
  species_row.mk 58 "GROWLITHE" "GROWLITHE" "Growlithe" 55 70 45 60 70 50,
  species_row.mk 59 "ARCANINE" "ARCANINE" "Arcanine" 90 110 80 95 100 80,
  species_row.mk 60 "POLIWAG" "POLIWAG" "Poliwag" 40 50 40 90 40 40,
  species_row.mk 61 "POLIWHIRL" "POLIWHIRL" "Poliwhirl" 65 65 65 90 50 50,
  species_row.mk 62 "POLIWRATH" "POLIWRATH" "Poliwrath" 90 85 95 70 70 90,
  species_row.mk 63 "ABRA" "ABRA" "Abra" 25 20 15 90 105 55,
  species_row.mk 64 "KADABRA" "KADABRA" "Kadabra" 40 35 30 105 120 70,
  species_row.mk 65 "ALAKAZAM" "ALAKAZAM" "Alakazam" 55 50 45 120 135 85,
  species_row.mk 66 "MACHOP" "MACHOP" "Machop" 70 80 50 35 35 35,
  species_row.mk 67 "MACHOKE" "MACHOKE" "Machoke" 80 100 70 45 50 60,
  species_row.mk 68 "MACHAMP" "MACHAMP" "Machamp" 90 130 80 55 65 85,
  species_row.mk 69 "BELLSPROUT" "BELLSPROUT" "Bellsprout" 50 75 35 40 70 30,
  species_row.mk 70 "WEEPINBELL" "WEEPINBELL" "Weepinbell" 65 90 50 55 85 45,
  species_row.mk 71 "VICTREEBEL" "VICTREEBEL" "Victreebel" 80 105 65 70 100 60,
  species_row.mk 72 "TENTACOOL" "TENTACOOL" "Tentacool" 40 40 35 70 50 100,
  species_row.mk 73 "TENTACRUEL" "TENTACRUEL" "Tentacruel" 80 70 65 100 80 120,
  species_row.mk 74 "GEODUDE" "GEODUDE" "Geodude" 40 80 100 20 30 30,
  species_row.mk 75 "GRAVELER" "GRAVELER" "Graveler" 55 95 115 35 45 45,
  species_row.mk 76 "GOLEM" "GOLEM" "Golem" 80 110 130 45 55 65,
  species_row.mk 77 "PONYTA" "PONYTA" "Ponyta" 50 85 55 90 65 65,
  species_row.mk 78 "RAPIDASH" "RAPIDASH" "Rapidash" 65 100 70 105 80 80,
  species_row.mk 79 "SLOWPOKE" "SLOWPOKE" "Slowpoke" 90 65 65 15 40 40,
  species_row.mk 80 "SLOWBRO" "SLOWBRO" "Slowbro" 95 75 110 30 100 80,
  species_row.mk 81 "MAGNEMITE" "MAGNEMITE" "Magnemite" 25 35 70 45 95 55,
  species_row.mk 82 "MAGNETON" "MAGNETON" "Magneton" 50 60 95 70 120 70,
  species_row.mk 83 "FARFETCHD" "FARFETCH’D" "Farfetch’d" 52 65 55 60 58 62,
  species_row.mk 84 "DODUO" "DODUO" "Doduo" 35 85 45 75 35 35,
  species_row.mk 85 "DODRIO" "DODRIO" "Dodrio" 60 110 70 100 60 60,
  species_row.mk 86 "SEEL" "SEEL" "Seel" 65 45 55 45 45 70,
  species_row.mk 87 "DEWGONG" "DEWGONG" "Dewgong" 90 70 80 70 70 95,
  species_row.mk 88 "GRIMER" "GRIMER" "Grimer" 80 80 50 25 40 50,
  species_row.mk 89 "MUK" "MUK" "Muk" 105 105 75 50 65 100,
  species_row.mk 90 "SHELLDER" "SHELLDER" "Shellder" 30 65 100 40 45 25,
  species_row.mk 91 "CLOYSTER" "CLOYSTER" "Cloyster" 50 95 180 70 85 45,
  species_row.mk 92 "GASTLY" "GASTLY" "Gastly" 30 35 30 80 100 35,
  species_row.mk 93 "HAUNTER" "HAUNTER" "Haunter" 45 50 45 95 115 55,
  species_row.mk 94 "GENGAR" "GENGAR" "Gengar" 60 65 60 110 130 75,
  species_row.mk 95 "ONIX" "ONIX" "Onix" 35 45 160 70 30 45,
  species_row.mk 96 "DROWZEE" "DROWZEE" "Drowzee" 60 48 45 42 43 90,
  species_row.mk 97 "HYPNO" "HYPNO" "Hypno" 85 73 70 67 73 115,
  species_row.mk 98 "KRABBY" "KRABBY" "Krabby" 30 105 90 50 25 25,
  species_row.mk 99 "KINGLER" "KINGLER" "Kingler" 55 130 115 75 50 50,
  species_row.mk 100 "VOLTORB" "VOLTORB" "Voltorb" 40 30 50 100 55 55,
  species_row.mk 101 "ELECTRODE" "ELECTRODE" "Electrode" 60 50 70 140 80 80,
  species_row.mk 102 "EXEGGCUTE" "EXEGGCUTE" "Exeggcute" 60 40 80 40 60 45,
  species_row.mk 103 "EXEGGUTOR" "EXEGGUTOR" "Exeggutor" 95 95 85 55 125 65,
  species_row.mk 104 "CUBONE" "CUBONE" "Cubone" 50 50 95 35 40 50,
  species_row.mk 105 "MAROWAK" "MAROWAK" "Marowak" 60 80 110 45 50 80,
  species_row.mk 106 "HITMONLEE" "HITMONLEE" "Hitmonlee" 50 120 53 87 35 110,
  species_row.mk 107 "HITMONCHAN" "HITMONCHAN" "Hitmonchan" 50 105 79 76 35 110,
  species_row.mk 108 "LICKITUNG" "LICKITUNG" "Lickitung" 90 55 75 30 60 75,
  species_row.mk 109 "KOFFING" "KOFFING" "Koffing" 40 65 95 35 60 45,
  species_row.mk 110 "WEEZING" "WEEZING" "Weezing" 65 90 120 60 85 70,
  species_row.mk 111 "RHYHORN" "RHYHORN" "Rhyhorn" 80 85 95 25 30 30,
  species_row.mk 112 "RHYDON" "RHYDON" "Rhydon" 105 130 120 40 45 45,
  species_row.mk 113 "CHANSEY" "CHANSEY" "Chansey" 250 5 5 50 35 105,
  species_row.mk 114 "TANGELA" "TANGELA" "Tangela" 65 55 115 60 100 40,
  species_row.mk 115 "KANGASKHAN" "KANGASKHAN" "Kangaskhan" 105 95 80 90 40 80,
  species_row.mk 116 "HORSEA" "HORSEA" "Horsea" 30 40 70 60 70 25,
  species_row.mk 117 "SEADRA" "SEADRA" "Seadra" 55 65 95 85 95 45,
  species_row.mk 118 "GOLDEEN" "GOLDEEN" "Goldeen" 45 67 60 63 35 50,
  species_row.mk 119 "SEAKING" "SEAKING" "Seaking" 80 92 65 68 65 80,
  species_row.mk 120 "STARYU" "STARYU" "Staryu" 30 45 55 85 70 55,
  species_row.mk 121 "STARMIE" "STARMIE" "Starmie" 60 75 85 115 100 85,
  species_row.mk 122 "MR_MIME" "MR. MIME" "Mr. Mime" 40 45 65 90 100 120,
  species_row.mk 123 "SCYTHER" "SCYTHER" "Scyther" 70 110 80 105 55 80,
  species_row.mk 124 "JYNX" "JYNX" "Jynx" 65 50 35 95 115 95,
  species_row.mk 125 "ELECTABUZZ" "ELECTABUZZ" "Electabuzz" 65 83 57 105 95 85,
  species_row.mk 126 "MAGMAR" "MAGMAR" "Magmar" 65 95 57 93 100 85,
  species_row.mk 127 "PINSIR" "PINSIR" "Pinsir" 65 125 100 85 55 70,
  species_row.mk 128 "TAUROS" "TAUROS" "Tauros" 75 100 95 110 40 70,
  species_row.mk 129 "MAGIKARP" "MAGIKARP" "Magikarp" 20 10 55 80 15 20,
  species_row.mk 130 "GYARADOS" "GYARADOS" "Gyarados" 95 125 79 81 60 100,
  species_row.mk 131 "LAPRAS" "LAPRAS" "Lapras" 130 85 80 60 85 95,
  species_row.mk 132 "DITTO" "DITTO" "Ditto" 48 48 48 48 48 48,
  species_row.mk 133 "EEVEE" "EEVEE" "Eevee" 55 55 50 55 45 65,
  species_row.mk 134 "VAPOREON" "VAPOREON" "Vaporeon" 130 65 60 65 110 95,
  species_row.mk 135 "JOLTEON" "JOLTEON" "Jolteon" 65 65 60 130 110 95,
  species_row.mk 136 "FLAREON" "FLAREON" "Flareon" 65 130 60 65 95 110,
  species_row.mk 137 "PORYGON" "PORYGON" "Porygon" 65 60 70 40 85 75,
  species_row.mk 138 "OMANYTE" "OMANYTE" "Omanyte" 35 40 100 35 90 55,
  species_row.mk 139 "OMASTAR" "OMASTAR" "Omastar" 70 60 125 55 115 70,
  species_row.mk 140 "KABUTO" "KABUTO" "Kabuto" 30 80 90 55 55 45,
  species_row.mk 141 "KABUTOPS" "KABUTOPS" "Kabutops" 60 115 105 80 65 70,
  species_row.mk 142 "AERODACTYL" "AERODACTYL" "Aerodactyl" 80 105 65 130 60 75,
  species_row.mk 143 "SNORLAX" "SNORLAX" "Snorlax" 160 110 65 30 65 110,
  species_row.mk 144 "ARTICUNO" "ARTICUNO" "Articuno" 90 85 100 85 95 125,
  species_row.mk 145 "ZAPDOS" "ZAPDOS" "Zapdos" 90 90 85 100 125 90,
  species_row.mk 146 "MOLTRES" "MOLTRES" "Moltres" 90 100 90 90 125 85,
  species_row.mk 147 "DRATINI" "DRATINI" "Dratini" 41 64 45 50 50 50,
  species_row.mk 148 "DRAGONAIR" "DRAGONAIR" "Dragonair" 61 84 65 70 70 70,
  species_row.mk 149 "DRAGONITE" "DRAGONITE" "Dragonite" 91 134 95 80 100 100,
  species_row.mk 150 "MEWTWO" "MEWTWO" "Mewtwo" 106 110 90 130 154 90,
  species_row.mk 151 "MEW" "MEW" "Mew" 100 100 100 100 100 100]

/-- A value of `pk3_effort_t`: six `uint8_t` members. -/
structure pk3_effort where
  hp : Nat
  atk : Nat
  def_ : Nat
  spd : Nat
  satk : Nat
  sdef : Nat
  deriving DecidableEq, Repr

/-- The element type of `species[]`; a `char const *` member is `none` when `NULL`. -/
structure species_entry where
  id : Nat
  nameCaps : Option String
  name : Option String
  stats : pk3_effort
  deriving DecidableEq, Repr

/-- The table `species[]`: the entry `{ 0, NULL, NULL, { 0, 0, 0, 0, 0, 0 } }`
followed by `{ id, nameCaps, name, { hp, atk, def, spd, satk, sdef } }` for each
row of `SPECIES`. -/
def species : List species_entry :=
  ⟨u16 0, none, none, ⟨u8 0, u8 0, u8 0, u8 0, u8 0, u8 0⟩⟩ ::
    SPECIES.map (fun r => ⟨u16 r.id, some r.nameCaps, some r.name,
      ⟨u8 r.hp, u8 r.atk, u8 r.def_, u8 r.spd, u8 r.satk, u8 r.sdef⟩⟩)

/-- One row `XX(id, token, name, pp)` of the list `MOVES`. -/
structure move_row where
  id : Nat
  token : String
  name : String
  pp : Nat
  deriving DecidableEq, Repr

/-- The list `MOVES(XX)`. -/
def MOVES : List move_row := [
  move_row.mk 1 "POUND" "Pound" 35,
  move_row.mk 2 "KARATE_CHOP" "Karate Chop" 25,
  move_row.mk 3 "DOUBLE_SLAP" "Double Slap" 10,
  move_row.mk 4 "COMET_PUNCH" "Comet Punch" 15,
  move_row.mk 5 "MEGA_PUNCH" "Mega Punch" 20,
  move_row.mk 6 "PAY_DAY" "Pay Day" 20,
  move_row.mk 7 "FIRE_PUNCH" "Fire Punch" 15,
  move_row.mk 8 "ICE_PUNCH" "Ice Punch" 15,
  move_row.mk 9 "THUNDER_PUNCH" "Thunder Punch" 15,
  move_row.mk 10 "SCRATCH" "Scratch" 35,
  move_row.mk 11 "VISE_GRIP" "Vise Grip" 30,
  move_row.mk 12 "GUILLOTINE" "Guillotine" 5,
  move_row.mk 13 "RAZOR_WIND" "Razor Wind" 10,
  move_row.mk 14 "SWORDS_DANCE" "Swords Dance" 20,
  move_row.mk 15 "CUT" "Cut" 30,
  move_row.mk 16 "GUST" "Gust" 35,
  move_row.mk 17 "WING_ATTACK" "Wing Attack" 35,
  move_row.mk 18 "WHIRLWIND" "Whirlwind" 20,
  move_row.mk 19 "FLY" "Fly" 15,
  move_row.mk 20 "BIND" "Bind" 20,
  move_row.mk 21 "SLAM" "Slam" 20,
  move_row.mk 22 "VINE_WHIP" "Vine Whip" 25,
  move_row.mk 23 "STOMP" "Stomp" 20,
  move_row.mk 24 "DOUBLE_KICK" "Double Kick" 30,
  move_row.mk 25 "MEGA_KICK" "Mega Kick" 5,
  move_row.mk 26 "JUMP_KICK" "Jump Kick" 10,
  move_row.mk 27 "ROLLING_KICK" "Rolling Kick" 15,
  move_row.mk 28 "SAND_ATTACK" "Sand Attack" 15,
  move_row.mk 29 "HEADBUTT" "Headbutt" 15,
  move_row.mk 30 "HORN_ATTACK" "Horn Attack" 25,
  move_row.mk 31 "FURY_ATTACK" "Fury Attack" 20,
  move_row.mk 32 "HORN_DRILL" "Horn Drill" 5,
  move_row.mk 33 "TACKLE" "Tackle" 35,
  move_row.mk 34 "BODY_SLAM" "Body Slam" 15,
  move_row.mk 35 "WRAP" "Wrap" 20,
  move_row.mk 36 "TAKE_DOWN" "Take Down" 20,
  move_row.mk 37 "THRASH" "Thrash" 20,
  move_row.mk 38 "DOUBLE_EDGE" "Double-Edge" 15,
  move_row.mk 39 "TAIL_WHIP" "Tail Whip" 30,
  move_row.mk 40 "POISON_STING" "Poison Sting" 35,
  move_row.mk 41 "TWINEEDLE" "Twineedle" 20,
  move_row.mk 42 "PIN_MISSILE" "Pin Missile" 20,
  move_row.mk 43 "LEER" "Leer" 30,
  move_row.mk 44 "BITE" "Bite" 25,
  move_row.mk 45 "GROWL" "Growl" 40,
  move_row.mk 46 "ROAR" "Roar" 20,
  move_row.mk 47 "SING" "Sing" 15,
  move_row.mk 48 "SUPERSONIC" "Supersonic" 20,
  move_row.mk 49 "SONIC_BOOM" "Sonic Boom" 20,
  move_row.mk 50 "DISABLE" "Disable" 20,
  move_row.mk 51 "ACID" "Acid" 30,
  move_row.mk 52 "EMBER" "Ember" 25,
  move_row.mk 53 "FLAMETHROWER" "Flamethrower" 15,
  move_row.mk 54 "MIST" "Mist" 30,
  move_row.mk 55 "WATER_GUN" "Water Gun" 25,
  move_row.mk 56 "HYDRO_PUMP" "Hydro Pump" 5,
  move_row.mk 57 "SURF" "Surf" 15,
  move_row.mk 58 "ICE_BEAM" "Ice Beam" 10,
  move_row.mk 59 "BLIZZARD" "Blizzard" 5,
  move_row.mk 60 "PSYBEAM" "Psybeam" 20,
  move_row.mk 61 "BUBBLE_BEAM" "Bubble Beam" 20,
  move_row.mk 62 "AURORA_BEAM" "Aurora Beam" 20,
  move_row.mk 63 "HYPER_BEAM" "Hyper Beam" 5,
  move_row.mk 64 "PECK" "Peck" 35,
  move_row.mk 65 "DRILL_PECK" "Drill Peck" 20,
  move_row.mk 66 "SUBMISSION" "Submission" 20,
  move_row.mk 67 "LOW_KICK" "Low Kick" 20,
  move_row.mk 68 "COUNTER" "Counter" 20,
  move_row.mk 69 "SEISMIC_TOSS" "Seismic Toss" 20,
  move_row.mk 70 "STRENGTH" "Strength" 15,
  move_row.mk 71 "ABSORB" "Absorb" 25,
  move_row.mk 72 "MEGA_DRAIN" "Mega Drain" 15,
  move_row.mk 73 "LEECH_SEED" "Leech Seed" 10,
  move_row.mk 74 "GROWTH" "Growth" 20,
  move_row.mk 75 "RAZOR_LEAF" "Razor Leaf" 25,
  move_row.mk 76 "SOLAR_BEAM" "Solar Beam" 10,
  move_row.mk 77 "POISON_POWDER" "Poison Powder" 35,
  move_row.mk 78 "STUN_SPORE" "Stun Spore" 30,
  move_row.mk 79 "SLEEP_POWDER" "Sleep Powder" 15,
  move_row.mk 80 "PETAL_DANCE" "Petal Dance" 10,
  move_row.mk 81 "STRING_SHOT" "String Shot" 40,
  move_row.mk 82 "DRAGON_RAGE" "Dragon Rage" 10,
  move_row.mk 83 "FIRE_SPIN" "Fire Spin" 15,
  move_row.mk 84 "THUNDER_SHOCK" "Thunder Shock" 30,
  move_row.mk 85 "THUNDERBOLT" "Thunderbolt" 15,
  move_row.mk 86 "THUNDER_WAVE" "Thunder Wave" 20,
  move_row.mk 87 "THUNDER" "Thunder" 10,
  move_row.mk 88 "ROCK_THROW" "Rock Throw" 15,
  move_row.mk 89 "EARTHQUAKE" "Earthquake" 10,
  move_row.mk 90 "FISSURE" "Fissure" 5,
  move_row.mk 91 "DIG" "Dig" 10,
  move_row.mk 92 "TOXIC" "Toxic" 10,
  move_row.mk 93 "CONFUSION" "Confusion" 25,
  move_row.mk 94 "PSYCHIC" "Psychic" 10,
  move_row.mk 95 "HYPNOSIS" "Hypnosis" 20,
  move_row.mk 96 "MEDITATE" "Meditate" 40,
  move_row.mk 97 "AGILITY" "Agility" 30,
  move_row.mk 98 "QUICK_ATTACK" "Quick Attack" 30,
  move_row.mk 99 "RAGE" "Rage" 20,
  move_row.mk 100 "TELEPORT" "Teleport" 20,
  move_row.mk 101 "NIGHT_SHADE" "Night Shade" 15,
  move_row.mk 102 "MIMIC" "Mimic" 10,
  move_row.mk 103 "SCREECH" "Screech" 40,
  move_row.mk 104 "DOUBLE_TEAM" "Double Team" 15,
  move_row.mk 105 "RECOVER" "Recover" 5,
  move_row.mk 106 "HARDEN" "Harden" 30,
  move_row.mk 107 "MINIMIZE" "Minimize" 10,
  move_row.mk 108 "SMOKESCREEN" "Smokescreen" 20,
  move_row.mk 109 "CONFUSE_RAY" "Confuse Ray" 10,
  move_row.mk 110 "WITHDRAW" "Withdraw" 40,
  move_row.mk 111 "DEFENSE_CURL" "Defense Curl" 40,
  move_row.mk 112 "BARRIER" "Barrier" 20,
  move_row.mk 113 "LIGHT_SCREEN" "Light Screen" 30,
  move_row.mk 114 "HAZE" "Haze" 30,
  move_row.mk 115 "REFLECT" "Reflect" 20,
  move_row.mk 116 "FOCUS_ENERGY" "Focus Energy" 30,
  move_row.mk 117 "BIDE" "Bide" 10,
  move_row.mk 118 "METRONOME" "Metronome" 10,
  move_row.mk 119 "MIRROR_MOVE" "Mirror Move" 20,
  move_row.mk 120 "SELF_DESTRUCT" "Self-Destruct" 5,
  move_row.mk 121 "EGG_BOMB" "Egg Bomb" 10,
  move_row.mk 122 "LICK" "Lick" 30,
  move_row.mk 123 "SMOG" "Smog" 20,
  move_row.mk 124 "SLUDGE" "Sludge" 20,
  move_row.mk 125 "BONE_CLUB" "Bone Club" 20,
  move_row.mk 126 "FIRE_BLAST" "Fire Blast" 5,
  move_row.mk 127 "WATERFALL" "Waterfall" 15,
  move_row.mk 128 "CLAMP" "Clamp" 15,
  move_row.mk 129 "SWIFT" "Swift" 20,
  move_row.mk 130 "SKULL_BASH" "Skull Bash" 10,
  move_row.mk 131 "SPIKE_CANNON" "Spike Cannon" 15,
  move_row.mk 132 "CONSTRICT" "Constrict" 35,
  move_row.mk 133 "AMNESIA" "Amnesia" 20,
  move_row.mk 134 "KINESIS" "Kinesis" 15,
  move_row.mk 135 "SOFT_BOILED" "Soft-Boiled" 5,
  move_row.mk 136 "HIGH_JUMP_KICK" "High Jump Kick" 10,
  move_row.mk 137 "GLARE" "Glare" 30,
  move_row.mk 138 "DREAM_EATER" "Dream Eater" 15,
  move_row.mk 139 "POISON_GAS" "Poison Gas" 40,
  move_row.mk 140 "BARRAGE" "Barrage" 20,
  move_row.mk 141 "LEECH_LIFE" "Leech Life" 15,
  move_row.mk 142 "LOVELY_KISS" "Lovely Kiss" 10,
  move_row.mk 143 "SKY_ATTACK" "Sky Attack" 5,
  move_row.mk 144 "TRANSFORM" "Transform" 10,
  move_row.mk 145 "BUBBLE" "Bubble" 30,
  move_row.mk 146 "DIZZY_PUNCH" "Dizzy Punch" 10,
  move_row.mk 147 "SPORE" "Spore" 15,
  move_row.mk 148 "FLASH" "Flash" 20,
  move_row.mk 149 "PSYWAVE" "Psywave" 15,
  move_row.mk 150 "SPLASH" "Splash" 40,
  move_row.mk 151 "ACID_ARMOR" "Acid Armor" 20,
  move_row.mk 152 "CRABHAMMER" "Crabhammer" 10,
  move_row.mk 153 "EXPLOSION" "Explosion" 5,
  move_row.mk 154 "FURY_SWIPES" "Fury Swipes" 15,
  move_row.mk 155 "BONEMERANG" "Bonemerang" 10,
  move_row.mk 156 "REST" "Rest" 10,
  move_row.mk 157 "ROCK_SLIDE" "Rock Slide" 10,
  move_row.mk 158 "HYPER_FANG" "Hyper Fang" 15,
  move_row.mk 159 "SHARPEN" "Sharpen" 30,
  move_row.mk 160 "CONVERSION" "Conversion" 30,
  move_row.mk 161 "TRI_ATTACK" "Tri Attack" 10,
  move_row.mk 162 "SUPER_FANG" "Super Fang" 10,
  move_row.mk 163 "SLASH" "Slash" 20,
  move_row.mk 164 "SUBSTITUTE" "Substitute" 10,
  move_row.mk 165 "STRUGGLE" "Struggle" 1,
  move_row.mk 166 "SKETCH" "Sketch" 1,
  move_row.mk 167 "TRIPLE_KICK" "Triple Kick" 10,
  move_row.mk 168 "THIEF" "Thief" 25,
  move_row.mk 169 "SPIDER_WEB" "Spider Web" 10,
  move_row.mk 170 "MIND_READER" "Mind Reader" 5,
  move_row.mk 171 "NIGHTMARE" "Nightmare" 15,
  move_row.mk 172 "FLAME_WHEEL" "Flame Wheel" 25,
  move_row.mk 173 "SNORE" "Snore" 15,
  move_row.mk 174 "CURSE" "Curse" 10,
  move_row.mk 175 "FLAIL" "Flail" 15,
  move_row.mk 176 "CONVERSION_2" "Conversion 2" 30,
  move_row.mk 177 "AEROBLAST" "Aeroblast" 5,
  move_row.mk 178 "COTTON_SPORE" "Cotton Spore" 40,
  move_row.mk 179 "REVERSAL" "Reversal" 15,
  move_row.mk 180 "SPITE" "Spite" 10,
  move_row.mk 181 "POWDER_SNOW" "Powder Snow" 25,
  move_row.mk 182 "PROTECT" "Protect" 10,
  move_row.mk 183 "MACH_PUNCH" "Mach Punch" 30,
  move_row.mk 184 "SCARY_FACE" "Scary Face" 10,
  move_row.mk 185 "FEINT_ATTACK" "Feint Attack" 20,
  move_row.mk 186 "SWEET_KISS" "Sweet Kiss" 10,
  move_row.mk 187 "BELLY_DRUM" "Belly Drum" 10,
  move_row.mk 188 "SLUDGE_BOMB" "Sludge Bomb" 10,
  move_row.mk 189 "MUD_SLAP" "Mud-Slap" 10,
  move_row.mk 190 "OCTAZOOKA" "Octazooka" 10,
  move_row.mk 191 "SPIKES" "Spikes" 20,
  move_row.mk 192 "ZAP_CANNON" "Zap Cannon" 5,
  move_row.mk 193 "FORESIGHT" "Foresight" 40,
  move_row.mk 194 "DESTINY_BOND" "Destiny Bond" 5,
  move_row.mk 195 "PERISH_SONG" "Perish Song" 5,
  move_row.mk 196 "ICY_WIND" "Icy Wind" 15,
  move_row.mk 197 "DETECT" "Detect" 5,
  move_row.mk 198 "BONE_RUSH" "Bone Rush" 10,
  move_row.mk 199 "LOCK_ON" "Lock-On" 5,
  move_row.mk 200 "OUTRAGE" "Outrage" 10,
  move_row.mk 201 "SANDSTORM" "Sandstorm" 10,
  move_row.mk 202 "GIGA_DRAIN" "Giga Drain" 10,
  move_row.mk 203 "ENDURE" "Endure" 10,
  move_row.mk 204 "CHARM" "Charm" 20,
  move_row.mk 205 "ROLLOUT" "Rollout" 20,
  move_row.mk 206 "FALSE_SWIPE" "False Swipe" 40,
  move_row.mk 207 "SWAGGER" "Swagger" 15,
  move_row.mk 208 "MILK_DRINK" "Milk Drink" 5,
  move_row.mk 209 "SPARK" "Spark" 20,
  move_row.mk 210 "FURY_CUTTER" "Fury Cutter" 20,
  move_row.mk 211 "STEEL_WING" "Steel Wing" 25,
  move_row.mk 212 "MEAN_LOOK" "Mean Look" 5,
  move_row.mk 213 "ATTRACT" "Attract" 15,
  move_row.mk 214 "SLEEP_TALK" "Sleep Talk" 10,
  move_row.mk 215 "HEAL_BELL" "Heal Bell" 5,
  move_row.mk 216 "RETURN" "Return" 20,
  move_row.mk 217 "PRESENT" "Present" 15,
  move_row.mk 218 "FRUSTRATION" "Frustration" 20,
  move_row.mk 219 "SAFEGUARD" "Safeguard" 25,
  move_row.mk 220 "PAIN_SPLIT" "Pain Split" 20,
  move_row.mk 221 "SACRED_FIRE" "Sacred Fire" 5,
  move_row.mk 222 "MAGNITUDE" "Magnitude" 30,
  move_row.mk 223 "DYNAMIC_PUNCH" "Dynamic Punch" 5,
  move_row.mk 224 "MEGAHORN" "Megahorn" 10,
  move_row.mk 225 "DRAGON_BREATH" "Dragon Breath" 20,
  move_row.mk 226 "BATON_PASS" "Baton Pass" 40,
  move_row.mk 227 "ENCORE" "Encore" 5,
  move_row.mk 228 "PURSUIT" "Pursuit" 20,
  move_row.mk 229 "RAPID_SPIN" "Rapid Spin" 40,
  move_row.mk 230 "SWEET_SCENT" "Sweet Scent" 20,
  move_row.mk 231 "IRON_TAIL" "Iron Tail" 15,
  move_row.mk 232 "METAL_CLAW" "Metal Claw" 35,
  move_row.mk 233 "VITAL_THROW" "Vital Throw" 10,
  move_row.mk 234 "MORNING_SUN" "Morning Sun" 5,
  move_row.mk 235 "SYNTHESIS" "Synthesis" 5,
  move_row.mk 236 "MOONLIGHT" "Moonlight" 5,
  move_row.mk 237 "HIDDEN_POWER" "Hidden Power" 15,
  move_row.mk 238 "CROSS_CHOP" "Cross Chop" 5,
  move_row.mk 239 "TWISTER" "Twister" 20,
  move_row.mk 240 "RAIN_DANCE" "Rain Dance" 5,
  move_row.mk 241 "SUNNY_DAY" "Sunny Day" 5,
  move_row.mk 242 "CRUNCH" "Crunch" 15,
  move_row.mk 243 "MIRROR_COAT" "Mirror Coat" 20,
  move_row.mk 244 "PSYCH_UP" "Psych Up" 10,
  move_row.mk 245 "EXTREME_SPEED" "Extreme Speed" 5,
  move_row.mk 246 "ANCIENT_POWER" "Ancient Power" 5,
  move_row.mk 247 "SHADOW_BALL" "Shadow Ball" 15,
  move_row.mk 248 "FUTURE_SIGHT" "Future Sight" 10,
  move_row.mk 249 "ROCK_SMASH" "Rock Smash" 15,
  move_row.mk 250 "WHIRLPOOL" "Whirlpool" 15,
  move_row.mk 251 "BEAT_UP" "Beat Up" 10,
  move_row.mk 252 "FAKE_OUT" "Fake Out" 10,
  move_row.mk 253 "UPROAR" "Uproar" 10,
  move_row.mk 254 "STOCKPILE" "Stockpile" 20,
  move_row.mk 255 "SPIT_UP" "Spit Up" 10,
  move_row.mk 256 "SWALLOW" "Swallow" 10,
  move_row.mk 257 "HEAT_WAVE" "Heat Wave" 10,
  move_row.mk 258 "HAIL" "Hail" 10,
  move_row.mk 259 "TORMENT" "Torment" 15,
  move_row.mk 260 "FLATTER" "Flatter" 15,
  move_row.mk 261 "WILL_O_WISP" "Will-O-Wisp" 15,
  move_row.mk 262 "MEMENTO" "Memento" 10,
  move_row.mk 263 "FACADE" "Facade" 20,
  move_row.mk 264 "FOCUS_PUNCH" "Focus Punch" 20,
  move_row.mk 265 "SMELLING_SALTS" "Smelling Salts" 10,
  move_row.mk 266 "FOLLOW_ME" "Follow Me" 20,
  move_row.mk 267 "NATURE_POWER" "Nature Power" 20,
  move_row.mk 268 "CHARGE" "Charge" 20,
  move_row.mk 269 "TAUNT" "Taunt" 20,
  move_row.mk 270 "HELPING_HAND" "Helping Hand" 20,
  move_row.mk 271 "TRICK" "Trick" 10,
  move_row.mk 272 "ROLE_PLAY" "Role Play" 10,
  move_row.mk 273 "WISH" "Wish" 10,
  move_row.mk 274 "ASSIST" "Assist" 20,
  move_row.mk 275 "INGRAIN" "Ingrain" 20,
  move_row.mk 276 "SUPERPOWER" "Superpower" 5,
  move_row.mk 277 "MAGIC_COAT" "Magic Coat" 15,
  move_row.mk 278 "RECYCLE" "Recycle" 10,
  move_row.mk 279 "REVENGE" "Revenge" 10,
  move_row.mk 280 "BRICK_BREAK" "Brick Break" 15,
  move_row.mk 281 "YAWN" "Yawn" 10,
  move_row.mk 282 "KNOCK_OFF" "Knock Off" 20,
  move_row.mk 283 "ENDEAVOR" "Endeavor" 5,
  move_row.mk 284 "ERUPTION" "Eruption" 5,
  move_row.mk 285 "SKILL_SWAP" "Skill Swap" 10,
  move_row.mk 286 "IMPRISON" "Imprison" 10,
  move_row.mk 287 "REFRESH" "Refresh" 20,
  move_row.mk 288 "GRUDGE" "Grudge" 5,
  move_row.mk 289 "SNATCH" "Snatch" 10,
  move_row.mk 290 "SECRET_POWER" "Secret Power" 20,
  move_row.mk 291 "DIVE" "Dive" 10,
  move_row.mk 292 "ARM_THRUST" "Arm Thrust" 20,
  move_row.mk 293 "CAMOUFLAGE" "Camouflage" 20,
  move_row.mk 294 "TAIL_GLOW" "Tail Glow" 20,
  move_row.mk 295 "LUSTER_PURGE" "Luster Purge" 5,
  move_row.mk 296 "MIST_BALL" "Mist Ball" 5,
  move_row.mk 297 "FEATHER_DANCE" "Feather Dance" 15,
  move_row.mk 298 "TEETER_DANCE" "Teeter Dance" 20,
  move_row.mk 299 "BLAZE_KICK" "Blaze Kick" 10,
  move_row.mk 300 "MUD_SPORT" "Mud Sport" 15,
  move_row.mk 301 "ICE_BALL" "Ice Ball" 20,
  move_row.mk 302 "NEEDLE_ARM" "Needle Arm" 15,
  move_row.mk 303 "SLACK_OFF" "Slack Off" 5,
  move_row.mk 304 "HYPER_VOICE" "Hyper Voice" 10,
  move_row.mk 305 "POISON_FANG" "Poison Fang" 15,
  move_row.mk 306 "CRUSH_CLAW" "Crush Claw" 10,
  move_row.mk 307 "BLAST_BURN" "Blast Burn" 5,
  move_row.mk 308 "HYDRO_CANNON" "Hydro Cannon" 5,
  move_row.mk 309 "METEOR_MASH" "Meteor Mash" 10,
  move_row.mk 310 "ASTONISH" "Astonish" 15,
  move_row.mk 311 "WEATHER_BALL" "Weather Ball" 10,
  move_row.mk 312 "AROMATHERAPY" "Aromatherapy" 5,
  move_row.mk 313 "FAKE_TEARS" "Fake Tears" 20,
  move_row.mk 314 "AIR_CUTTER" "Air Cutter" 25,
  move_row.mk 315 "OVERHEAT" "Overheat" 5,
  move_row.mk 316 "ODOR_SLEUTH" "Odor Sleuth" 40,
  move_row.mk 317 "ROCK_TOMB" "Rock Tomb" 15,
  move_row.mk 318 "SILVER_WIND" "Silver Wind" 5,
  move_row.mk 319 "METAL_SOUND" "Metal Sound" 40,
  move_row.mk 320 "GRASS_WHISTLE" "Grass Whistle" 15,
  move_row.mk 321 "TICKLE" "Tickle" 20,
  move_row.mk 322 "COSMIC_POWER" "Cosmic Power" 20,
  move_row.mk 323 "WATER_SPOUT" "Water Spout" 5,
  move_row.mk 324 "SIGNAL_BEAM" "Signal Beam" 15,
  move_row.mk 325 "SHADOW_PUNCH" "Shadow Punch" 20,
  move_row.mk 326 "EXTRASENSORY" "Extrasensory" 20,
  move_row.mk 327 "SKY_UPPERCUT" "Sky Uppercut" 15,
  move_row.mk 328 "SAND_TOMB" "Sand Tomb" 15,
  move_row.mk 329 "SHEER_COLD" "Sheer Cold" 5,
  move_row.mk 330 "MUDDY_WATER" "Muddy Water" 10,
  move_row.mk 331 "BULLET_SEED" "Bullet Seed" 30,
  move_row.mk 332 "AERIAL_ACE" "Aerial Ace" 20,
  move_row.mk 333 "ICICLE_SPEAR" "Icicle Spear" 30,
  move_row.mk 334 "IRON_DEFENSE" "Iron Defense" 15,
  move_row.mk 335 "BLOCK" "Block" 5,
  move_row.mk 336 "HOWL" "Howl" 40,
  move_row.mk 337 "DRAGON_CLAW" "Dragon Claw" 15,
  move_row.mk 338 "FRENZY_PLANT" "Frenzy Plant" 5,
  move_row.mk 339 "BULK_UP" "Bulk Up" 20,
  move_row.mk 340 "BOUNCE" "Bounce" 5,
  move_row.mk 341 "MUD_SHOT" "Mud Shot" 15,
  move_row.mk 342 "POISON_TAIL" "Poison Tail" 25,
  move_row.mk 343 "COVET" "Covet" 25,
  move_row.mk 344 "VOLT_TACKLE" "Volt Tackle" 15,
  move_row.mk 345 "MAGICAL_LEAF" "Magical Leaf" 20,
  move_row.mk 346 "WATER_SPORT" "Water Sport" 15,
  move_row.mk 347 "CALM_MIND" "Calm Mind" 20,
  move_row.mk 348 "LEAF_BLADE" "Leaf Blade" 15,
  move_row.mk 349 "DRAGON_DANCE" "Dragon Dance" 20,
  move_row.mk 350 "ROCK_BLAST" "Rock Blast" 10,
  move_row.mk 351 "SHOCK_WAVE" "Shock Wave" 20,
  move_row.mk 352 "WATER_PULSE" "Water Pulse" 20,
  move_row.mk 353 "DOOM_DESIRE" "Doom Desire" 5,
  move_row.mk 354 "PSYCHO_BOOST" "Psycho Boost" 5]

/-- The element type of `moves[]`: `int16_t id; char const *name; int8_t pp`. -/
structure move_entry where
  id : Int
  name : String
  pp : Int
  deriving DecidableEq, Repr

/-- The table `moves[]`: the entry `{ 0, "--", 0}` followed by `{ id, name, pp }`
for each row of `MOVES`. -/
def moves : List move_entry :=
  ⟨i16 0, "--", i8 0⟩ :: MOVES.map (fun r => ⟨i16 r.id, r.name, i8 r.pp⟩)

/-- One row `XX(id, token, name)` of the lists `ITEMS`, `LOCATIONS` and `POCKETS`
(where the third argument is called `label`). -/
structure name_row where
  id : Nat
  token : String
  name : String
  deriving DecidableEq, Repr

/-- The element type of `items[]`, `locations[]` and `pockets[]`: an id and a
`char const *` name (called `label` in `pockets[]`). -/
structure name_entry where
  id : Nat
  name : String
  deriving DecidableEq, Repr

/-- The list `ITEMS(XX)`. -/
def ITEMS : List name_row := [
  name_row.mk 0 "NOTHING" "Nothing",
  name_row.mk 1 "MASTER_BALL" "Master Ball",
  name_row.mk 2 "ULTRA_BALL" "Ultra Ball",
  name_row.mk 3 "GREAT_BALL" "Great Ball",
  name_row.mk 4 "POKE_BALL" "Poké Ball",
  name_row.mk 5 "SAFARI_BALL" "Safari Ball",
  name_row.mk 6 "NET_BALL" "Net Ball",
  name_row.mk 7 "DIVE_BALL" "Dive Ball",
  name_row.mk 8 "NEST_BALL" "Nest Ball",
  name_row.mk 9 "REPEAT_BALL" "Repeat Ball",
  name_row.mk 10 "TIMER_BALL" "Timer Ball",
  name_row.mk 11 "LUXURY_BALL" "Luxury Ball",
  name_row.mk 12 "PREMIER_BALL" "Premier Ball",
  name_row.mk 13 "POTION" "Potion",
  name_row.mk 14 "ANTIDOTE" "Antidote",
  name_row.mk 15 "BURN_HEAL" "Burn Heal",
  name_row.mk 16 "ICE_HEAL" "Ice Heal",
  name_row.mk 17 "AWAKENING" "Awakening",
  name_row.mk 18 "PARLYZ_HEAL" "Parlyz Heal",
  name_row.mk 19 "FULL_RESTORE" "Full Restore",
  name_row.mk 20 "MAX_POTION" "Max Potion",
  name_row.mk 21 "HYPER_POTION" "Hyper Potion",
  name_row.mk 22 "SUPER_POTION" "Super Potion",
  name_row.mk 23 "FULL_HEAL" "Full Heal",
  name_row.mk 24 "REVIVE" "Revive",
  name_row.mk 25 "MAX_REVIVE" "Max Revive",
  name_row.mk 26 "FRESH_WATER" "Fresh Water",
  name_row.mk 27 "SODA_POP" "Soda Pop",
  name_row.mk 28 "LEMONADE" "Lemonade",
  name_row.mk 29 "MOOMOO_MILK" "Moomoo Milk",
  name_row.mk 30 "ENERGYPOWDER" "EnergyPowder",
  name_row.mk 31 "ENERGY_ROOT" "Energy Root",
  name_row.mk 32 "HEAL_POWDER" "Heal Powder",
  name_row.mk 33 "REVIVAL_HERB" "Revival Herb",
  name_row.mk 34 "ETHER" "Ether",
  name_row.mk 35 "MAX_ETHER" "Max Ether",
  name_row.mk 36 "ELIXIR" "Elixir",
  name_row.mk 37 "MAX_ELIXIR" "Max Elixir",
  name_row.mk 38 "LAVA_COOKIE" "Lava Cookie",
  name_row.mk 39 "BLUE_FLUTE" "Blue Flute",
  name_row.mk 40 "YELLOW_FLUTE" "Yellow Flute",
  name_row.mk 41 "RED_FLUTE" "Red Flute",
  name_row.mk 42 "BLACK_FLUTE" "Black Flute",
  name_row.mk 43 "WHITE_FLUTE" "White Flute",
  name_row.mk 44 "BERRY_JUICE" "Berry Juice",
  name_row.mk 45 "SACRED_ASH" "Sacred Ash",
  name_row.mk 46 "SHOAL_SALT" "Shoal Salt",
  name_row.mk 47 "SHOAL_SHELL" "Shoal Shell",
  name_row.mk 48 "RED_SHARD" "Red Shard",
  name_row.mk 49 "BLUE_SHARD" "Blue Shard",
  name_row.mk 50 "YELLOW_SHARD" "Yellow Shard",
  name_row.mk 51 "GREEN_SHARD" "Green Shard",
  name_row.mk 52 "UNKNOWN_52" "unknown",
  name_row.mk 53 "UNKNOWN_53" "unknown",
  name_row.mk 54 "UNKNOWN_54" "unknown",
  name_row.mk 55 "UNKNOWN_55" "unknown",
  name_row.mk 56 "UNKNOWN_56" "unknown",
  name_row.mk 57 "UNKNOWN_57" "unknown",
  name_row.mk 58 "UNKNOWN_58" "unknown",
  name_row.mk 59 "UNKNOWN_59" "unknown",
  name_row.mk 60 "UNKNOWN_60" "unknown",
  name_row.mk 61 "UNKNOWN_61" "unknown",
  name_row.mk 62 "UNKNOWN_62" "unknown",
  name_row.mk 63 "HP_UP" "HP Up",
  name_row.mk 64 "PROTEIN" "Protein",
  name_row.mk 65 "IRON" "Iron",
  name_row.mk 66 "CARBOS" "Carbos",
  name_row.mk 67 "CALCIUM" "Calcium",
  name_row.mk 68 "RARE_CANDY" "Rare Candy",
  name_row.mk 69 "PP_UP" "PP Up",
  name_row.mk 70 "ZINC" "Zinc",
  name_row.mk 71 "PP_MAX" "PP Max",
  name_row.mk 72 "UNKNOWN_72" "unknown",
  name_row.mk 73 "GUARD_SPEC_" "Guard Spec.",
  name_row.mk 74 "DIRE_HIT" "Dire Hit",
  name_row.mk 75 "X_ATTACK" "X Attack",
  name_row.mk 76 "X_DEFEND" "X Defend",
  name_row.mk 77 "X_SPEED" "X Speed",
  name_row.mk 78 "X_ACCURACY" "X Accuracy",
  name_row.mk 79 "X_SPECIAL" "X Special",
  name_row.mk 80 "POKE_DOLL" "Poké Doll",
  name_row.mk 81 "FLUFFY_TAIL" "Fluffy Tail",
  name_row.mk 82 "UNKNOWN_82" "unknown",
  name_row.mk 83 "SUPER_REPEL" "Super Repel",
  name_row.mk 84 "MAX_REPEL" "Max Repel",
  name_row.mk 85 "ESCAPE_ROPE" "Escape Rope",
  name_row.mk 86 "REPEL" "Repel",
  name_row.mk 87 "UNKNOWN_87" "unknown",
  name_row.mk 88 "UNKNOWN_88" "unknown",
  name_row.mk 89 "UNKNOWN_89" "unknown",
  name_row.mk 90 "UNKNOWN_90" "unknown",
  name_row.mk 91 "UNKNOWN_91" "unknown",
  name_row.mk 92 "UNKNOWN_92" "unknown",
  name_row.mk 93 "SUN_STONE" "Sun Stone",
  name_row.mk 94 "MOON_STONE" "Moon Stone",
  name_row.mk 95 "FIRE_STONE" "Fire Stone",
  name_row.mk 96 "THUNDERSTONE" "Thunderstone",
  name_row.mk 97 "WATER_STONE" "Water Stone",
  name_row.mk 98 "LEAF_STONE" "Leaf Stone",
  name_row.mk 99 "UNKNOWN_99" "unknown",
  name_row.mk 100 "UNKNOWN_100" "unknown",
  name_row.mk 101 "UNKNOWN_101" "unknown",
  name_row.mk 102 "UNKNOWN_102" "unknown",
  name_row.mk 103 "TINYMUSHROOM" "TinyMushroom",
  name_row.mk 104 "BIG_MUSHROOM" "Big Mushroom",
  name_row.mk 105 "UNKNOWN_105" "unknown",
  name_row.mk 106 "PEARL" "Pearl",
  name_row.mk 107 "BIG_PEARL" "Big Pearl",
  name_row.mk 108 "STARDUST" "Stardust",
  name_row.mk 109 "STAR_PIECE" "Star Piece",
  name_row.mk 110 "NUGGET" "Nugget",
  name_row.mk 111 "HEART_SCALE" "Heart Scale",
  name_row.mk 112 "UNKNOWN_112" "unknown",
  name_row.mk 113 "UNKNOWN_113" "unknown",
  name_row.mk 114 "UNKNOWN_114" "unknown",
  name_row.mk 115 "UNKNOWN_115" "unknown",
  name_row.mk 116 "UNKNOWN_116" "unknown",
  name_row.mk 117 "UNKNOWN_117" "unknown",
  name_row.mk 118 "UNKNOWN_118" "unknown",
  name_row.mk 119 "UNKNOWN_119" "unknown",
  name_row.mk 120 "UNKNOWN_120" "unknown",
  name_row.mk 121 "ORANGE_MAIL" "Orange Mail",
  name_row.mk 122 "HARBOR_MAIL" "Harbor Mail",
  name_row.mk 123 "GLITTER_MAIL" "Glitter Mail",
  name_row.mk 124 "MECH_MAIL" "Mech Mail",
  name_row.mk 125 "WOOD_MAIL" "Wood Mail",
  name_row.mk 126 "WAVE_MAIL" "Wave Mail",
  name_row.mk 127 "BEAD_MAIL" "Bead Mail",
  name_row.mk 128 "SHADOW_MAIL" "Shadow Mail",
  name_row.mk 129 "TROPIC_MAIL" "Tropic Mail",
  name_row.mk 130 "DREAM_MAIL" "Dream Mail",
  name_row.mk 131 "FAB_MAIL" "Fab Mail",
  name_row.mk 132 "RETRO_MAIL" "Retro Mail",
  name_row.mk 133 "CHERI_BERRY" "Cheri Berry",
  name_row.mk 134 "CHESTO_BERRY" "Chesto Berry",
  name_row.mk 135 "PECHA_BERRY" "Pecha Berry",
  name_row.mk 136 "RAWST_BERRY" "Rawst Berry",
  name_row.mk 137 "ASPEAR_BERRY" "Aspear Berry",
  name_row.mk 138 "LEPPA_BERRY" "Leppa Berry",
  name_row.mk 139 "ORAN_BERRY" "Oran Berry",
  name_row.mk 140 "PERSIM_BERRY" "Persim Berry",
  name_row.mk 141 "LUM_BERRY" "Lum Berry",
  name_row.mk 142 "SITRUS_BERRY" "Sitrus Berry",
  name_row.mk 143 "FIGY_BERRY" "Figy Berry",
  name_row.mk 144 "WIKI_BERRY" "Wiki Berry",
  name_row.mk 145 "MAGO_BERRY" "Mago Berry",
  name_row.mk 146 "AGUAV_BERRY" "Aguav Berry",
  name_row.mk 147 "IAPAPA_BERRY" "Iapapa Berry",
  name_row.mk 148 "RAZZ_BERRY" "Razz Berry",
  name_row.mk 149 "BLUK_BERRY" "Bluk Berry",
  name_row.mk 150 "NANAB_BERRY" "Nanab Berry",
  name_row.mk 151 "WEPEAR_BERRY" "Wepear Berry",
  name_row.mk 152 "PINAP_BERRY" "Pinap Berry",
  name_row.mk 153 "POMEG_BERRY" "Pomeg Berry",
  name_row.mk 154 "KELPSY_BERRY" "Kelpsy Berry",
  name_row.mk 155 "QUALOT_BERRY" "Qualot Berry",
  name_row.mk 156 "HONDEW_BERRY" "Hondew Berry",
  name_row.mk 157 "GREPA_BERRY" "Grepa Berry",
  name_row.mk 158 "TAMATO_BERRY" "Tamato Berry",
  name_row.mk 159 "CORNN_BERRY" "Cornn Berry",
  name_row.mk 160 "MAGOST_BERRY" "Magost Berry",
  name_row.mk 161 "RABUTA_BERRY" "Rabuta Berry",
  name_row.mk 162 "NOMEL_BERRY" "Nomel Berry",
  name_row.mk 163 "SPELON_BERRY" "Spelon Berry",
  name_row.mk 164 "PAMTRE_BERRY" "Pamtre Berry",
  name_row.mk 165 "WATMEL_BERRY" "Watmel Berry",
  name_row.mk 166 "DURIN_BERRY" "Durin Berry",
  name_row.mk 167 "BELUE_BERRY" "Belue Berry",
  name_row.mk 168 "LIECHI_BERRY" "Liechi Berry",
  name_row.mk 169 "GANLON_BERRY" "Ganlon Berry",
  name_row.mk 170 "SALAC_BERRY" "Salac Berry",
  name_row.mk 171 "PETAYA_BERRY" "Petaya Berry",
  name_row.mk 172 "APICOT_BERRY" "Apicot Berry",
  name_row.mk 173 "LANSAT_BERRY" "Lansat Berry",
  name_row.mk 174 "STARF_BERRY" "Starf Berry",
  name_row.mk 175 "ENIGMA_BERRY" "Enigma Berry",
  name_row.mk 176 "UNKNOWN_176" "unknown",
  name_row.mk 177 "UNKNOWN_177" "unknown",
  name_row.mk 178 "UNKNOWN_178" "unknown",
  name_row.mk 179 "BRIGHTPOWDER" "BrightPowder",
  name_row.mk 180 "WHITE_HERB" "White Herb",
  name_row.mk 181 "MACHO_BRACE" "Macho Brace",
  name_row.mk 182 "EXP_SHARE" "Exp. Share",
  name_row.mk 183 "QUICK_CLAW" "Quick Claw",
  name_row.mk 184 "SOOTHE_BELL" "Soothe Bell",
  name_row.mk 185 "MENTAL_HERB" "Mental Herb",
  name_row.mk 186 "CHOICE_BAND" "Choice Band",
  name_row.mk 187 "KINGS_ROCK" "King’s Rock",
  name_row.mk 188 "SILVERPOWDER" "SilverPowder",
  name_row.mk 189 "AMULET_COIN" "Amulet Coin",
  name_row.mk 190 "CLEANSE_TAG" "Cleanse Tag",
  name_row.mk 191 "SOUL_DEW" "Soul Dew",
  name_row.mk 192 "DEEPSEATOOTH" "DeepSeaTooth",
  name_row.mk 193 "DEEPSEASCALE" "DeepSeaScale",
  name_row.mk 194 "SMOKE_BALL" "Smoke Ball",
  name_row.mk 195 "EVERSTONE" "Everstone",
  name_row.mk 196 "FOCUS_BAND" "Focus Band",
  name_row.mk 197 "LUCKY_EGG" "Lucky Egg",
  name_row.mk 198 "SCOPE_LENS" "Scope Lens",
  name_row.mk 199 "METAL_COAT" "Metal Coat",
  name_row.mk 200 "LEFTOVERS" "Leftovers",
  name_row.mk 201 "DRAGON_SCALE" "Dragon Scale",
  name_row.mk 202 "LIGHT_BALL" "Light Ball",
  name_row.mk 203 "SOFT_SAND" "Soft Sand",
  name_row.mk 204 "HARD_STONE" "Hard Stone",
  name_row.mk 205 "MIRACLE_SEED" "Miracle Seed",
  name_row.mk 206 "BLACKGLASSES" "BlackGlasses",
  name_row.mk 207 "BLACK_BELT" "Black Belt",
  name_row.mk 208 "MAGNET" "Magnet",
  name_row.mk 209 "MYSTIC_WATER" "Mystic Water",
  name_row.mk 210 "SHARP_BEAK" "Sharp Beak",
  name_row.mk 211 "POISON_BARB" "Poison Barb",
  name_row.mk 212 "NEVERMELTICE" "NeverMeltIce",
  name_row.mk 213 "SPELL_TAG" "Spell Tag",
  name_row.mk 214 "TWISTEDSPOON" "TwistedSpoon",
  name_row.mk 215 "CHARCOAL" "Charcoal",
  name_row.mk 216 "DRAGON_FANG" "Dragon Fang",
  name_row.mk 217 "SILK_SCARF" "Silk Scarf",
  name_row.mk 218 "UP_GRADE" "Up-Grade",
  name_row.mk 219 "SHELL_BELL" "Shell Bell",
  name_row.mk 220 "SEA_INCENSE" "Sea Incense",
  name_row.mk 221 "LAX_INCENSE" "Lax Incense",
  name_row.mk 222 "LUCKY_PUNCH" "Lucky Punch",
  name_row.mk 223 "METAL_POWDER" "Metal Powder",
  name_row.mk 224 "THICK_CLUB" "Thick Club",
  name_row.mk 225 "STICK" "Stick",
  name_row.mk 226 "UNKNOWN_226" "unknown",
  name_row.mk 227 "UNKNOWN_227" "unknown",
  name_row.mk 228 "UNKNOWN_228" "unknown",
  name_row.mk 229 "UNKNOWN_229" "unknown",
  name_row.mk 230 "UNKNOWN_230" "unknown",
  name_row.mk 231 "UNKNOWN_231" "unknown",
  name_row.mk 232 "UNKNOWN_232" "unknown",
  name_row.mk 233 "UNKNOWN_233" "unknown",
  name_row.mk 234 "UNKNOWN_234" "unknown",
  name_row.mk 235 "UNKNOWN_235" "unknown",
  name_row.mk 236 "UNKNOWN_236" "unknown",
  name_row.mk 237 "UNKNOWN_237" "unknown",
  name_row.mk 238 "UNKNOWN_238" "unknown",
  name_row.mk 239 "UNKNOWN_239" "unknown",
  name_row.mk 240 "UNKNOWN_240" "unknown",
  name_row.mk 241 "UNKNOWN_241" "unknown",
  name_row.mk 242 "UNKNOWN_242" "unknown",
  name_row.mk 243 "UNKNOWN_243" "unknown",
  name_row.mk 244 "UNKNOWN_244" "unknown",
  name_row.mk 245 "UNKNOWN_245" "unknown",
  name_row.mk 246 "UNKNOWN_246" "unknown",
  name_row.mk 247 "UNKNOWN_247" "unknown",
  name_row.mk 248 "UNKNOWN_248" "unknown",
  name_row.mk 249 "UNKNOWN_249" "unknown",
  name_row.mk 250 "UNKNOWN_250" "unknown",
  name_row.mk 251 "UNKNOWN_251" "unknown",
  name_row.mk 252 "UNKNOWN_252" "unknown",
  name_row.mk 253 "UNKNOWN_253" "unknown",
  name_row.mk 254 "RED_SCARF" "Red Scarf",
  name_row.mk 255 "BLUE_SCARF" "Blue Scarf",
  name_row.mk 256 "PINK_SCARF" "Pink Scarf",
  name_row.mk 257 "GREEN_SCARF" "Green Scarf",
  name_row.mk 258 "YELLOW_SCARF" "Yellow Scarf",
  name_row.mk 259 "MACH_BIKE" "Mach Bike",
  name_row.mk 260 "COIN_CASE" "Coin Case",
  name_row.mk 261 "ITEMFINDER" "Itemfinder",
  name_row.mk 262 "OLD_ROD" "Old Rod",
  name_row.mk 263 "GOOD_ROD" "Good Rod",
  name_row.mk 264 "SUPER_ROD" "Super Rod",
  name_row.mk 265 "S_S_TICKET" "S.S. Ticket",
  name_row.mk 266 "CONTEST_PASS" "Contest Pass",
  name_row.mk 267 "UNKNOWN_267" "unknown",
  name_row.mk 268 "WAILMER_PAIL" "Wailmer Pail",
  name_row.mk 269 "DEVON_GOODS" "Devon Goods",
  name_row.mk 270 "SOOT_SACK" "Soot Sack",
  name_row.mk 271 "BASEMENT_KEY" "Basement Key",
  name_row.mk 272 "ACRO_BIKE" "Acro Bike",
  name_row.mk 273 "POKEBLOCK_CASE" "Pokéblock Case",
  name_row.mk 274 "LETTER" "Letter",
  name_row.mk 275 "EON_TICKET" "Eon Ticket",
  name_row.mk 276 "RED_ORB" "Red Orb",
  name_row.mk 277 "BLUE_ORB" "Blue Orb",
  name_row.mk 278 "SCANNER" "Scanner",
  name_row.mk 279 "GO_GOGGLES" "Go-Goggles",
  name_row.mk 280 "METEORITE" "Meteorite",
  name_row.mk 281 "RM_1_KEY" "Rm. 1 Key",
  name_row.mk 282 "RM_2_KEY" "Rm. 2 Key",
  name_row.mk 283 "RM_4_KEY" "Rm. 4 Key",
  name_row.mk 284 "RM_6_KEY" "Rm. 6 Key",
  name_row.mk 285 "STORAGE_KEY" "Storage Key",
  name_row.mk 286 "ROOT_FOSSIL" "Root Fossil",
  name_row.mk 287 "CLAW_FOSSIL" "Claw Fossil",
  name_row.mk 288 "DEVON_SCOPE" "Devon Scope",
  name_row.mk 289 "TM01" "TM01",
  name_row.mk 290 "TM02" "TM02",
  name_row.mk 291 "TM03" "TM03",
  name_row.mk 292 "TM04" "TM04",
  name_row.mk 293 "TM05" "TM05",
  name_row.mk 294 "TM06" "TM06",
  name_row.mk 295 "TM07" "TM07",
  name_row.mk 296 "TM08" "TM08",
  name_row.mk 297 "TM09" "TM09",
  name_row.mk 298 "TM10" "TM10",
  name_row.mk 299 "TM11" "TM11",
  name_row.mk 300 "TM12" "TM12",
  name_row.mk 301 "TM13" "TM13",
  name_row.mk 302 "TM14" "TM14",
  name_row.mk 303 "TM15" "TM15",
  name_row.mk 304 "TM16" "TM16",
  name_row.mk 305 "TM17" "TM17",
  name_row.mk 306 "TM18" "TM18",
  name_row.mk 307 "TM19" "TM19",
  name_row.mk 308 "TM20" "TM20",
  name_row.mk 309 "TM21" "TM21",
  name_row.mk 310 "TM22" "TM22",
  name_row.mk 311 "TM23" "TM23",
  name_row.mk 312 "TM24" "TM24",
  name_row.mk 313 "TM25" "TM25",
  name_row.mk 314 "TM26" "TM26",
  name_row.mk 315 "TM27" "TM27",
  name_row.mk 316 "TM28" "TM28",
  name_row.mk 317 "TM29" "TM29",
  name_row.mk 318 "TM30" "TM30",
  name_row.mk 319 "TM31" "TM31",
  name_row.mk 320 "TM32" "TM32",
  name_row.mk 321 "TM33" "TM33",
  name_row.mk 322 "TM34" "TM34",
  name_row.mk 323 "TM35" "TM35",
  name_row.mk 324 "TM36" "TM36",
  name_row.mk 325 "TM37" "TM37",
  name_row.mk 326 "TM38" "TM38",
  name_row.mk 327 "TM39" "TM39",
  name_row.mk 328 "TM40" "TM40",
  name_row.mk 329 "TM41" "TM41",
  name_row.mk 330 "TM42" "TM42",
  name_row.mk 331 "TM43" "TM43",
  name_row.mk 332 "TM44" "TM44",
  name_row.mk 333 "TM45" "TM45",
  name_row.mk 334 "TM46" "TM46",
  name_row.mk 335 "TM47" "TM47",
  name_row.mk 336 "TM48" "TM48",
  name_row.mk 337 "TM49" "TM49",
  name_row.mk 338 "TM50" "TM50",
  name_row.mk 339 "HM01" "HM01",
  name_row.mk 340 "HM02" "HM02",
  name_row.mk 341 "HM03" "HM03",
  name_row.mk 342 "HM04" "HM04",
  name_row.mk 343 "HM05" "HM05",
  name_row.mk 344 "HM06" "HM06",
  name_row.mk 345 "HM07" "HM07",
  name_row.mk 346 "HM08" "HM08",
  name_row.mk 347 "UNKNOWN_347" "unknown",
  name_row.mk 348 "UNKNOWN_348" "unknown",
  name_row.mk 349 "OAKS_PARCEL" "Oak’s Parcel",
  name_row.mk 350 "POKE_FLUTE" "Poké Flute",
  name_row.mk 351 "SECRET_KEY" "Secret Key",
  name_row.mk 352 "BIKE_VOUCHER" "Bike Voucher",
  name_row.mk 353 "GOLD_TEETH" "Gold Teeth",
  name_row.mk 354 "OLD_AMBER" "Old Amber",
  name_row.mk 355 "CARD_KEY" "Card Key",
  name_row.mk 356 "LIFT_KEY" "Lift Key",
  name_row.mk 357 "HELIX_FOSSIL" "Helix Fossil",
  name_row.mk 358 "DOME_FOSSIL" "Dome Fossil",
  name_row.mk 359 "SILPH_SCOPE" "Silph Scope",
  name_row.mk 360 "BICYCLE" "Bicycle",
  name_row.mk 361 "TOWN_MAP" "Town Map",
  name_row.mk 362 "VS_SEEKER" "VS Seeker",
  name_row.mk 363 "FAME_CHECKER" "Fame Checker",
  name_row.mk 364 "TM_CASE" "TM Case",
  name_row.mk 365 "BERRY_POUCH" "Berry Pouch",
  name_row.mk 366 "TEACHY_TV" "Teachy TV",
  name_row.mk 367 "TRI_PASS" "Tri-Pass",
  name_row.mk 368 "RAINBOW_PASS" "Rainbow Pass",
  name_row.mk 369 "TEA" "Tea",
  name_row.mk 370 "MYSTICTICKET" "MysticTicket",
  name_row.mk 371 "AURORATICKET" "AuroraTicket",
  name_row.mk 372 "POWDER_JAR" "Powder Jar",
  name_row.mk 373 "RUBY" "Ruby",
  name_row.mk 374 "SAPPHIRE" "Sapphire",
  name_row.mk 375 "MAGMA_EMBLEM" "Magma Emblem",
  name_row.mk 376 "OLD_SEA_MAP" "Old Sea Map"]

/-- The table `items[]`: `{ id, name }` for each row of `ITEMS`; `id` is a `uint16_t`. -/
def items : List name_entry :=
  ITEMS.map (fun r => ⟨u16 r.id, r.name⟩)

/-- The list `LOCATIONS(XX)`. -/
def LOCATIONS : List name_row := [
  name_row.mk 0 "LITTLEROOT_TOWN" "Littleroot Town",
  name_row.mk 1 "OLDALE_TOWN" "Oldale Town",
  name_row.mk 2 "DEWFORD_TOWN" "Dewford Town",
  name_row.mk 3 "LAVARIDGE_TOWN" "Lavaridge Town",
  name_row.mk 4 "FALLARBOR_TOWN" "Fallarbor Town",
  name_row.mk 5 "VERDANTURF_TOWN" "Verdanturf Town",
  name_row.mk 6 "PACIFIDLOG_TOWN" "Pacifidlog Town",
  name_row.mk 7 "PETALBURG_CITY" "Petalburg City",
  name_row.mk 8 "SLATEPORT_CITY" "Slateport City",
  name_row.mk 9 "MAUVILLE_CITY" "Mauville City",
  name_row.mk 10 "RUSTBORO_CITY" "Rustboro City",
  name_row.mk 11 "FORTREE_CITY" "Fortree City",
  name_row.mk 12 "LILYCOVE_CITY" "Lilycove City",
  name_row.mk 13 "MOSSDEEP_CITY" "Mossdeep City",
  name_row.mk 14 "SOOTOPOLIS_CITY" "Sootopolis City",
  name_row.mk 15 "EVER_GRANDE_CITY" "Ever Grande City",
  name_row.mk 16 "ROUTE_101" "Route 101",
  name_row.mk 17 "ROUTE_102" "Route 102",
  name_row.mk 18 "ROUTE_103" "Route 103",
  name_row.mk 19 "ROUTE_104" "Route 104",
  name_row.mk 20 "ROUTE_105" "Route 105",
  name_row.mk 21 "ROUTE_106" "Route 106",
  name_row.mk 22 "ROUTE_107" "Route 107",
  name_row.mk 23 "ROUTE_108" "Route 108",
  name_row.mk 24 "ROUTE_109" "Route 109",
  name_row.mk 25 "ROUTE_110" "Route 110",
  name_row.mk 26 "ROUTE_111" "Route 111",
  name_row.mk 27 "ROUTE_112" "Route 112",
  name_row.mk 28 "ROUTE_113" "Route 113",
  name_row.mk 29 "ROUTE_114" "Route 114",
  name_row.mk 30 "ROUTE_115" "Route 115",
  name_row.mk 31 "ROUTE_116" "Route 116",
  name_row.mk 32 "ROUTE_117" "Route 117",
  name_row.mk 33 "ROUTE_118" "Route 118",
  name_row.mk 34 "ROUTE_119" "Route 119",
  name_row.mk 35 "ROUTE_120" "Route 120",
  name_row.mk 36 "ROUTE_121" "Route 121",
  name_row.mk 37 "ROUTE_122" "Route 122",
  name_row.mk 38 "ROUTE_123" "Route 123",
  name_row.mk 39 "ROUTE_124" "Route 124",
  name_row.mk 40 "ROUTE_125" "Route 125",
  name_row.mk 41 "ROUTE_126" "Route 126",
  name_row.mk 42 "ROUTE_127" "Route 127",
  name_row.mk 43 "ROUTE_128" "Route 128",
  name_row.mk 44 "ROUTE_129" "Route 129",
  name_row.mk 45 "ROUTE_130" "Route 130",
  name_row.mk 46 "ROUTE_131" "Route 131",
  name_row.mk 47 "ROUTE_132" "Route 132",
  name_row.mk 48 "ROUTE_133" "Route 133",
  name_row.mk 49 "ROUTE_134" "Route 134",
  name_row.mk 50 "UNDERWATER_50" "Underwater",
  name_row.mk 51 "UNDERWATER_51" "Underwater",
  name_row.mk 52 "UNDERWATER_52" "Underwater",
  name_row.mk 53 "UNDERWATER_53" "Underwater",
  name_row.mk 54 "UNDERWATER_54" "Underwater",
  name_row.mk 55 "GRANITE_CAVE" "Granite Cave",
  name_row.mk 56 "MT_CHIMNEY" "Mt. Chimney",
  name_row.mk 57 "SAFARI_ZONE_57" "Safari Zone",
  name_row.mk 58 "BATTLE_TOWER_BATTLE_FRONTIER" "Battle Tower/Battle Frontier",
  name_row.mk 59 "PETALBURG_WOODS" "Petalburg Woods",
  name_row.mk 60 "RUSTURF_TUNNEL" "Rusturf Tunnel",
  name_row.mk 61 "ABANDONED_SHIP" "Abandoned Ship",
  name_row.mk 62 "NEW_MAUVILLE" "New Mauville",
  name_row.mk 63 "METEOR_FALLS_63" "Meteor Falls",
  name_row.mk 64 "METEOR_FALLS_64" "Meteor Falls",
  name_row.mk 65 "MT_PYRE" "Mt. Pyre",
  name_row.mk 66 "HIDEOUT" "Hideout",
  name_row.mk 67 "SHOAL_CAVE" "Shoal Cave",
  name_row.mk 68 "SEAFLOOR_CAVERN" "Seafloor Cavern",
  name_row.mk 69 "UNDERWATER_69" "Underwater",
  name_row.mk 70 "VICTORY_ROAD_70" "Victory Road",
  name_row.mk 71 "MIRAGE_ISLAND" "Mirage Island",
  name_row.mk 72 "CAVE_OF_ORIGIN" "Cave of Origin",
  name_row.mk 73 "SOUTHERN_ISLAND" "Southern Island",
  name_row.mk 74 "FIERY_PATH_74" "Fiery Path",
  name_row.mk 75 "FIERY_PATH_75" "Fiery Path",
  name_row.mk 76 "JAGGED_PASS_76" "Jagged Pass",
  name_row.mk 77 "JAGGED_PASS_77" "Jagged Pass",
  name_row.mk 78 "SEALED_CHAMBER" "Sealed Chamber",
  name_row.mk 79 "UNDERWATER_79" "Underwater",
  name_row.mk 80 "SCORCHED_SLAB" "Scorched Slab",
  name_row.mk 81 "ISLAND_CAVE" "Island Cave",
  name_row.mk 82 "DESERT_RUINS" "Desert Ruins",
  name_row.mk 83 "ANCIENT_TOMB" "Ancient Tomb",
  name_row.mk 84 "INSIDE_OF_TRUCK" "Inside of Truck",
  name_row.mk 85 "SKY_PILLAR" "Sky Pillar",
  name_row.mk 86 "SECRET_BASE" "Secret Base",
  name_row.mk 87 "FERRY" "Ferry",
  name_row.mk 88 "PALLET_TOWN" "Pallet Town",
  name_row.mk 89 "VIRIDIAN_CITY" "Viridian City",
  name_row.mk 90 "PEWTER_CITY" "Pewter City",
  name_row.mk 91 "CERULEAN_CITY" "Cerulean City",
  name_row.mk 92 "LAVENDER_TOWN" "Lavender Town",
  name_row.mk 93 "VERMILION_CITY" "Vermilion City",
  name_row.mk 94 "CELADON_CITY" "Celadon City",
  name_row.mk 95 "FUCHSIA_CITY" "Fuchsia City",
  name_row.mk 96 "CINNABAR_ISLAND" "Cinnabar Island",
  name_row.mk 97 "INDIGO_PLATEAU" "Indigo Plateau",
  name_row.mk 98 "SAFFRON_CITY" "Saffron City",
  name_row.mk 99 "ROUTE_4_99" "Route 4",
  name_row.mk 100 "ROUTE_10_100" "Route 10",
  name_row.mk 101 "ROUTE_1" "Route 1",
  name_row.mk 102 "ROUTE_2" "Route 2",
  name_row.mk 103 "ROUTE_3" "Route 3",
  name_row.mk 104 "ROUTE_4_104" "Route 4",
  name_row.mk 105 "ROUTE_5" "Route 5",
  name_row.mk 106 "ROUTE_6" "Route 6",
  name_row.mk 107 "ROUTE_7" "Route 7",
  name_row.mk 108 "ROUTE_8" "Route 8",
  name_row.mk 109 "ROUTE_9" "Route 9",
  name_row.mk 110 "ROUTE_10_110" "Route 10",
  name_row.mk 111 "ROUTE_11" "Route 11",
  name_row.mk 112 "ROUTE_12" "Route 12",
  name_row.mk 113 "ROUTE_13" "Route 13",
  name_row.mk 114 "ROUTE_14" "Route 14",
  name_row.mk 115 "ROUTE_15" "Route 15",
  name_row.mk 116 "ROUTE_16" "Route 16",
  name_row.mk 117 "ROUTE_17" "Route 17",
  name_row.mk 118 "ROUTE_18" "Route 18",
  name_row.mk 119 "ROUTE_19" "Route 19",
  name_row.mk 120 "ROUTE_20" "Route 20",
  name_row.mk 121 "ROUTE_21" "Route 21",
  name_row.mk 122 "ROUTE_22" "Route 22",
  name_row.mk 123 "ROUTE_23" "Route 23",
  name_row.mk 124 "ROUTE_24" "Route 24",
  name_row.mk 125 "ROUTE_25" "Route 25",
  name_row.mk 126 "VIRIDIAN_FOREST" "Viridian Forest",
  name_row.mk 127 "MT_MOON" "Mt. Moon",
  name_row.mk 128 "S_S_ANNE" "S.S. Anne",
  name_row.mk 129 "UNDERGROUND_PATH_129" "Underground Path",
  name_row.mk 130 "UNDERGROUND_PATH_130" "Underground Path",
  name_row.mk 131 "DIGLETTS_CAVE" "Diglett’s Cave",
  name_row.mk 132 "VICTORY_ROAD_132" "Victory Road",
  name_row.mk 133 "ROCKET_HIDEOUT" "Rocket Hideout",
  name_row.mk 134 "SILPH_CO" "Silph Co.",
  name_row.mk 135 "POKEMON_MANSION" "Pokémon Mansion",
  name_row.mk 136 "SAFARI_ZONE_136" "Safari Zone",
  name_row.mk 137 "POKEMON_LEAGUE" "Pokémon League",
  name_row.mk 138 "ROCK_TUNNEL" "Rock Tunnel",
  name_row.mk 139 "SEAFOAM_ISLANDS" "Seafoam Islands",
  name_row.mk 140 "POKEMON_TOWER" "Pokémon Tower",
  name_row.mk 141 "CERULEAN_CAVE" "Cerulean Cave",
  name_row.mk 142 "POWER_PLANT" "Power Plant",
  name_row.mk 143 "ONE_ISLAND" "One Island",
  name_row.mk 144 "TWO_ISLAND" "Two Island",
  name_row.mk 145 "THREE_ISLAND" "Three Island",
  name_row.mk 146 "FOUR_ISLAND" "Four Island",
  name_row.mk 147 "FIVE_ISLAND" "Five Island",
  name_row.mk 148 "SEVEN_ISLAND" "Seven Island",
  name_row.mk 149 "SIX_ISLAND" "Six Island",
  name_row.mk 150 "KINDLE_ROAD" "Kindle Road",
  name_row.mk 151 "TREASURE_BEACH" "Treasure Beach",
  name_row.mk 152 "CAPE_BRINK" "Cape Brink",
  name_row.mk 153 "BOND_BRIDGE" "Bond Bridge",
  name_row.mk 154 "THREE_ISLE_PORT" "Three Isle Port",
  name_row.mk 155 "SEVII_ISLE_6" "Sevii Isle 6",
  name_row.mk 156 "SEVII_ISLE_7" "Sevii Isle 7",
  name_row.mk 157 "SEVII_ISLE_8" "Sevii Isle 8",
  name_row.mk 158 "SEVII_ISLE_9" "Sevii Isle 9",
  name_row.mk 159 "RESORT_GORGEOUS" "Resort Gorgeous",
  name_row.mk 160 "WATER_LABYRINTH" "Water Labyrinth",
  name_row.mk 161 "FIVE_ISLE_MEADOW" "Five Isle Meadow",
  name_row.mk 162 "MEMORIAL_PILLAR" "Memorial Pillar",
  name_row.mk 163 "OUTCAST_ISLAND" "Outcast Island",
  name_row.mk 164 "GREEN_PATH" "Green Path",
  name_row.mk 165 "WATER_PATH" "Water Path",
  name_row.mk 166 "RUIN_VALLEY" "Ruin Valley",
  name_row.mk 167 "TRAINER_TOWER_167" "Trainer Tower",
  name_row.mk 168 "CANYON_ENTRANCE" "Canyon Entrance",
  name_row.mk 169 "SEVAULT_CANYON" "Sevault Canyon",
  name_row.mk 170 "TANOBY_RUINS" "Tanoby Ruins",
  name_row.mk 171 "SEVII_ISLE_22" "Sevii Isle 22",
  name_row.mk 172 "SEVII_ISLE_23" "Sevii Isle 23",
  name_row.mk 173 "SEVII_ISLE_24" "Sevii Isle 24",
  name_row.mk 174 "NAVEL_ROCK_174" "Navel Rock",
  name_row.mk 175 "MT_EMBER" "Mt. Ember",
  name_row.mk 176 "BERRY_FOREST" "Berry Forest",
  name_row.mk 177 "ICEFALL_CAVE" "Icefall Cave",
  name_row.mk 178 "ROCKET_WAREHOUSE" "Rocket Warehouse",
  name_row.mk 179 "TRAINER_TOWER_179" "Trainer Tower",
  name_row.mk 180 "DOTTED_HOLE" "Dotted Hole",
  name_row.mk 181 "LOST_CAVE" "Lost Cave",
  name_row.mk 182 "PATTERN_BUSH" "Pattern Bush",
  name_row.mk 183 "ALTERING_CAVE_183" "Altering Cave",
  name_row.mk 184 "TANOBY_CHAMBERS" "Tanoby Chambers",
  name_row.mk 185 "THREE_ISLE_PATH" "Three Isle Path",
  name_row.mk 186 "TANOBY_KEY" "Tanoby Key",
  name_row.mk 187 "BIRTH_ISLAND_187" "Birth Island",
  name_row.mk 188 "MONEAN_CHAMBER" "Monean Chamber",
  name_row.mk 189 "LIPTOO_CHAMBER" "Liptoo Chamber",
  name_row.mk 190 "WEEPTH_CHAMBER" "Weepth Chamber",
  name_row.mk 191 "DILFORD_CHAMBER" "Dilford Chamber",
  name_row.mk 192 "SCUFIB_CHAMBER" "Scufib Chamber",
  name_row.mk 193 "RIXY_CHAMBER" "Rixy Chamber",
  name_row.mk 194 "VIAPOIS_CHAMBER" "Viapois Chamber",
  name_row.mk 195 "EMBER_SPA" "Ember Spa",
  name_row.mk 196 "CELADON_DEPT_SPECIAL_AREA" "Celadon Dept./Special Area",
  name_row.mk 197 "AQUA_HIDEOUT" "Aqua Hideout",
  name_row.mk 198 "MAGMA_HIDEOUT" "Magma Hideout",
  name_row.mk 199 "MIRAGE_TOWER" "Mirage Tower",
  name_row.mk 200 "BIRTH_ISLAND_200" "Birth Island",
  name_row.mk 201 "FARAWAY_ISLAND" "Faraway Island",
  name_row.mk 202 "ARTISAN_CAVE" "Artisan Cave",
  name_row.mk 203 "MARINE_CAVE" "Marine Cave",
  name_row.mk 204 "UNDERWATER_204" "Underwater",
  name_row.mk 205 "TERRA_CAVE" "Terra Cave",
  name_row.mk 206 "UNDERWATER_206" "Underwater",
  name_row.mk 207 "UNDERWATER_207" "Underwater",
  name_row.mk 208 "UNDERWATER_208" "Underwater",
  name_row.mk 209 "DESERT_UNDERPASS" "Desert Underpass",
  name_row.mk 210 "ALTERING_CAVE_210" "Altering Cave",
  name_row.mk 211 "NAVEL_ROCK_211" "Navel Rock",
  name_row.mk 212 "TRAINER_HILL" "Trainer Hill"]

/-- The table `locations[]`: `{ id, name }` for each row of `LOCATIONS`; `id` is a
`uint8_t`. -/
def locations : List name_entry :=
  LOCATIONS.map (fun r => ⟨u8 r.id, r.name⟩)

/-- The list `POCKETS(XX)`. -/
def POCKETS : List name_row := [
  name_row.mk 0 "PC_ITEMS" "PC Items",
  name_row.mk 1 "ITEMS_POCKET" "Items Pocket",
  name_row.mk 2 "KEY_ITEMS_POCKET" "Key Items Pocket",
  name_row.mk 3 "POKE_BALLS_POCKET" "Poké Balls Pocket",
  name_row.mk 4 "HM_TM_POCKET" "TM Case",
  name_row.mk 5 "BERRY_POCKET" "Berries Pocket"]

/-- The table `pockets[]`: `{ id, label }` for each row of `POCKETS`; `id` is a
`uint8_t`. -/
def pockets : List name_entry :=
  POCKETS.map (fun r => ⟨u8 r.id, r.name⟩)

/-- The enumerator `GBA_ITEM_POCKET_PC` of `gba_item_pocket_t` (`game_gba.h`). -/
def GBA_ITEM_POCKET_PC : Nat := 0

/-- The enumerator `GBA_ITEM_POCKET_ITEM` of `gba_item_pocket_t`. -/
def GBA_ITEM_POCKET_ITEM : Nat := 1

/-- The enumerator `GBA_ITEM_POCKET_KEYITEM` of `gba_item_pocket_t`. -/
def GBA_ITEM_POCKET_KEYITEM : Nat := 2

/-- The enumerator `GBA_ITEM_POCKET_BALL` of `gba_item_pocket_t`. -/
def GBA_ITEM_POCKET_BALL : Nat := 3

/-- The enumerator `GBA_ITEM_POCKET_HMTM` of `gba_item_pocket_t`. -/
def GBA_ITEM_POCKET_HMTM : Nat := 4

/-- The enumerator `GBA_ITEM_POCKET_BERRY` of `gba_item_pocket_t`. -/
def GBA_ITEM_POCKET_BERRY : Nat := 5

/-! ## `stat.c`: the search loop with a step count -/

/-- The loop of `gb_calc_ev` as in `gb_calc_ev_loop`, returning next to the final
counter `b` the number of `++b` that were executed (`steps` so far). -/
def gb_calc_ev_loop_steps : Nat → Nat → Nat → Nat → Option (Nat × Nat)
  | 0, _, _, _ => none
  | fuel + 1, b, steps, stat_exp =>
    if b * b < stat_exp then gb_calc_ev_loop_steps fuel (u8 (b + 1)) (steps + 1) stat_exp
    else some (b, steps)

/-! ## Generation-3 block shuffle and mask -/

/-- Modelled from the spec: one of the four 12-byte data blocks of a box record,
as the three 32-bit words the mask is applied to. -/
structure pk3_block where
  w0 : Nat
  w1 : Nat
  w2 : Nat
  deriving DecidableEq, Repr

/-- Modelled from the spec: the content of a `pk3_box_t` record: personality
value, trainer id and secret id, the header bytes after them, and the four data
blocks in the order they are stored. `pk3_encrypt` and `pk3_decrypt` are declared
in `game_gba.h`; their bodies are not among the sources. -/
structure pk3_record where
  pid : Nat
  ot_id : Nat
  ot_sid : Nat
  header_rest : List Nat
  block0 : pk3_block
  block1 : pk3_block
  block2 : pk3_block
  block3 : pk3_block
  deriving DecidableEq, Repr

/-- Modelled from the spec: the 24 block orders, indexed by
`personality_value % 24`, in the canonical generation-3 sequence GAEM, GAME,
GEAM, ..., MEGA, MEAG with Growth = 0, Attack = 1, EVs/Contest = 2, Misc = 3.
Entry `j` of an order is the canonical block stored at position `j`. -/
def pk3_block_orders : List (List Nat) := [
  [0, 1, 2, 3], [0, 1, 3, 2], [0, 2, 1, 3], [0, 2, 3, 1], [0, 3, 1, 2], [0, 3, 2, 1],
  [1, 0, 2, 3], [1, 0, 3, 2], [1, 2, 0, 3], [1, 2, 3, 0], [1, 3, 0, 2], [1, 3, 2, 0],
  [2, 0, 1, 3], [2, 0, 3, 1], [2, 1, 0, 3], [2, 1, 3, 0], [2, 3, 0, 1], [2, 3, 1, 0],
  [3, 0, 1, 2], [3, 0, 2, 1], [3, 1, 0, 2], [3, 1, 2, 0], [3, 2, 0, 1], [3, 2, 1, 0]]

/-- Modelled from the spec: the block order selected by `personality_value % 24`. -/
def pk3_order (r : pk3_record) : List Nat :=
  pk3_block_orders.getD (r.pid % 24) []

/-- Modelled from the spec: the 32-bit key
`personality_value XOR (trainer_id | (trainer_secret_id << 16))`. -/
def pk3_key (r : pk3_record) : Nat :=
  r.pid ^^^ (r.ot_id ||| (r.ot_sid <<< 16))

/-- The block stored at position `j` of a record. -/
def pk3_get_block (r : pk3_record) : Nat → pk3_block
  | 0 => r.block0
  | 1 => r.block1
  | 2 => r.block2
  | _ => r.block3

/-- The record with the block `f j` stored at each position `j`. -/
def pk3_set_blocks (r : pk3_record) (f : Nat → pk3_block) : pk3_record :=
  { r with block0 := f 0, block1 := f 1, block2 := f 2, block3 := f 3 }

/-- Modelled from the spec: the key repeated across a block as 32-bit words. -/
def pk3_mask_block (key : Nat) (b : pk3_block) : pk3_block :=
  ⟨b.w0 ^^^ key, b.w1 ^^^ key, b.w2 ^^^ key⟩

/-- Modelled from the spec: XOR-masking of the 48-byte payload with the key of
the record. -/
def pk3_mask (r : pk3_record) : pk3_record :=
  pk3_set_blocks r (fun j => pk3_mask_block (pk3_key r) (pk3_get_block r j))

/-- Modelled from the spec: blocks in canonical order are put into the stored
order selected by the personality value: position `j` receives the canonical
block named by entry `j` of the order. -/
def pk3_shuffle (r : pk3_record) : pk3_record :=
  pk3_set_blocks r (fun j => pk3_get_block r ((pk3_order r).getD j 0))

/-- Modelled from the spec: the inverse reordering, from stored order to
canonical order: canonical block `c` is taken from the position at which the
order names `c`. -/
def pk3_unshuffle (r : pk3_record) : pk3_record :=
  pk3_set_blocks r (fun c => pk3_get_block r ((pk3_order r).indexOf c))

/-- Modelled from the spec: `encrypt(record)` reorders the canonical blocks into
the stored order selected by the personality value, then XOR-masks the payload. -/
def pk3_encrypt (r : pk3_record) : pk3_record :=
  pk3_mask (pk3_shuffle r)

/-- Modelled from the spec: `decrypt(record)` XOR-unmasks the payload with the
key, then reorders the blocks from stored order to canonical order. -/
def pk3_decrypt (r : pk3_record) : pk3_record :=
  pk3_unshuffle (pk3_mask r)

/-! ## GBA text codec -/

/-- Modelled from the spec: the terminator byte `0xFF` of GBA text. -/
def GBA_TEXT_TERMINATOR : Nat := 0xFF

/-- Modelled from the spec: encoding of one code unit. `table` is the GBA
mapping table (byte to code unit, `none` where a byte has no mapping), which is
not among the sources; a code unit that no byte below the terminator maps to
becomes the placeholder glyph `placeholder`. -/
def gba_encode_unit (table : Nat → Option Nat) (placeholder c : Nat) : Nat :=
  ((List.range GBA_TEXT_TERMINATOR).find? (fun b => table b == some c)).getD placeholder

/-- Modelled from the spec: decoding of one byte other than the terminator; a
byte without mapping becomes the placeholder code unit `placeholder`. -/
def gba_decode_byte (table : Nat → Option Nat) (placeholder b : Nat) : Nat :=
  (table b).getD placeholder

/-- Modelled from the spec: `encode(code_units, length) -> raw_bytes` for GBA
text (`ucs2_to_gba_text` is declared in `game_gba.h`, its body is not among the
sources): the first `size` code units are encoded; a shorter input is padded
with the terminator byte up to `size`. -/
def ucs2_to_gba_text (table : Nat → Option Nat) (placeholder : Nat) :
    List Nat → Nat → List Nat
  | _, 0 => []
  | [], size + 1 => List.replicate (size + 1) GBA_TEXT_TERMINATOR
  | c :: src, size + 1 =>
    gba_encode_unit table placeholder c :: ucs2_to_gba_text table placeholder src size

/-- Modelled from the spec: `decode(raw_bytes, length) -> code units` for GBA
text (`gba_text_to_ucs2` is declared in `game_gba.h`, its body is not among the
sources): bytes are decoded up to `size`; the terminator byte stops the decoding
early and the remaining output slots are filled with zero. -/
def gba_text_to_ucs2 (table : Nat → Option Nat) (placeholder : Nat) :
    List Nat → Nat → List Nat
  | _, 0 => []
  | [], size + 1 => List.replicate (size + 1) 0
  | b :: src, size + 1 =>
    if b = GBA_TEXT_TERMINATOR then List.replicate (size + 1) 0
    else gba_decode_byte table placeholder b :: gba_text_to_ucs2 table placeholder src size

/-- The upper-case letters of the GBA table, `0xBB` for `A` to `0xD4` for `Z`,
as a table on its own (used to try the codec on a concrete input). -/
def gba_upper_case_table (b : Nat) : Option Nat :=
  if 0xBB ≤ b ∧ b ≤ 0xD4 then some (b - 0xBB + 65) else none

/-! ## `game_gba.h`: member offsets -/

/-- The declared type of a member. -/
def member_type : Member → CType
  | .field ty _ => ty
  | .bits ty _ _ => ty

/-- The declared name of a member (empty for an unnamed member). -/
def member_name : Member → String
  | .field _ name => name
  | .bits _ name _ => name

/-- The type of member number `i` of a structure or union. -/
def nth_member_type (t : CType) (i : Nat) : CType :=
  match (members_of t)[i]? with
  | some m => member_type m
  | none => .struct []

/-- Name, first bit and width in bits of each member of a structure laid out
from bit offset `off`, by the rule of `struct_end`: an ordinary member starts at
the next byte boundary, a bit-field at the next free bit. -/
def struct_layout : List Member → Nat → List (String × Nat × Nat)
  | [], _ => []
  | .field ty name :: rest, off =>
    (name, (off + 7) / 8 * 8, 8 * sizeof ty)
      :: struct_layout rest (((off + 7) / 8 + sizeof ty) * 8)
  | .bits _ name width :: rest, off =>
    (name, off, width) :: struct_layout rest (off + width)

/-- Name, first bit and width in bits of each member of a union placed at bit
offset `off`: every member starts where the union starts. -/
def union_layout (members : List Member) (off : Nat) : List (String × Nat × Nat) :=
  members.map (fun m => (member_name m, off, member_bits m))

/-- No two of the listed bit ranges share a bit. -/
def ranges_disjoint (ranges : List (String × Nat × Nat)) : Prop :=
  ranges.Pairwise (fun a b => a.2.1 + a.2.2 ≤ b.2.1 ∨ b.2.1 + b.2.2 ≤ a.2.1)

instance (ranges : List (String × Nat × Nat)) : Decidable (ranges_disjoint ranges) := by
  unfold ranges_disjoint
  infer_instance

/-! ## `pokemon_data.h`: in-game-trade trainers -/

/-- The members of `gba_trainer_t` that the initialisers of `pokemon_data.h` set:
`name` (7 bytes of GBA text), `is_female`, `id` and `sid`. -/
structure gba_trainer where
  name : List Nat
  is_female : Nat
  id : Nat
  sid : Nat
  deriving DecidableEq, Repr

/-- The trainer `elyssa` of `pokemon_data.h`, commented `"ELYSSA"`. -/
def elyssa : gba_trainer :=
  { name := [0xbf, 0xc6, 0xd3, 0xcd, 0xcd, 0xbb, 0xff], is_female := 1, id := 8810, sid := 0 }

/-- The trainer `reyley` of `pokemon_data.h`, commented `"REYLEY"`. -/
def reyley : gba_trainer :=
  { name := [0xcc, 0xbf, 0xd3, 0xc6, 0xbf, 0xd3, 0xff], is_female := 0, id := 1985, sid := 0 }

/-- The trainer `saige` of `pokemon_data.h`, commented `"SAIGE"`. -/
def saige : gba_trainer :=
  { name := [0xcd, 0xbb, 0xc3, 0xc1, 0xbf, 0xff, 0x00], is_female := 1, id := 63184, sid := 0 }

/-- The GBA codes of a word in upper-case letters: `0xBB` plus the position of
each letter in the alphabet, `A` being `0xBB`. -/
def gba_upper_case_codes (word : String) : List Nat :=
  word.toList.map (fun c => 0xBB + (c.toNat - 'A'.toNat))

/-! ## `game_gba.h`: PC storage -/

/-- The size in bytes of the GBA save we expect. -/
def GBA_SAVE_SIZE : Nat := 0x20000

/-- The unpacked size of a GBA save slot. -/
def GBA_UNPACKED_SIZE : Nat := 0xD900

/-- The number of boxes in the PC. -/
def GBA_BOX_COUNT : Nat := 14

/-- The number of pokemon in a box. -/
def GBA_POKEMON_IN_BOX : Nat := 30

/-- The length of a PC box name. -/
def GBA_BOX_NAME_LENGTH : Nat := 9

/-- The declaration `gba_pc_box_t`. -/
def gba_pc_box_t : CType :=
  .struct [
    .field (.array pk3_box_t GBA_POKEMON_IN_BOX) "pokemon"]

/-- The declaration `gba_pc_t`. -/
def gba_pc_t : CType :=
  .struct [
    .field .uint32_t "current_box",
    .field (.array gba_pc_box_t GBA_BOX_COUNT) "box",
    .field (.array (.array .char8_t GBA_BOX_NAME_LENGTH) GBA_BOX_COUNT) "name",
    .field (.array .uint8_t GBA_BOX_COUNT) "wallpaper"]

/-! ## Reference formulas -/

/-- The least natural number `b` with `b * b ≥ x`, the `ceil(sqrt(x))` of the
stat formulas of generations 1 and 2. -/
def ceil_sqrt (x : Nat) : Nat :=
  Nat.find (⟨x, Nat.le_mul_self x⟩ : ∃ b, x ≤ b * b)

/-! ## Helper lemmas -/

theorem gba_calc_base_stat_eq (level base_stat iv ev : Nat)
    (hl : level ≤ 255) (hb : base_stat ≤ 255) (hi : iv ≤ 255) (he : ev ≤ 255) :
    gba_calc_base_stat level base_stat iv ev
      = (2 * base_stat + iv + ev / 4) * level / 100 := by
  have hsum : 2 * base_stat + iv + ev / 4 ≤ 828 := by omega
  have hprod : (2 * base_stat + iv + ev / 4) * level ≤ 828 * 255 :=
    Nat.mul_le_mul hsum hl
  have hshl : base_stat <<< 1 = 2 * base_stat := by
    rw [Nat.shiftLeft_eq]; omega
  have hshr : ev >>> 2 = ev / 4 := by
    rw [Nat.shiftRight_eq_div_pow]
  unfold gba_calc_base_stat u16 u32
  rw [hshl, hshr]
  rw [Nat.mod_eq_of_lt (by omega : 2 * base_stat < 2 ^ 32)]
  rw [Nat.mod_eq_of_lt (by omega : 2 * base_stat + iv < 2 ^ 32)]
  rw [Nat.mod_eq_of_lt (by omega : 2 * base_stat + iv + ev / 4 < 2 ^ 32)]
  rw [Nat.mod_eq_of_lt (by omega : (2 * base_stat + iv + ev / 4) * level < 2 ^ 32)]
  apply Nat.mod_eq_of_lt
  omega

theorem gba_calc_base_stat_le (level base_stat iv ev : Nat)
    (hl : level ≤ 255) (hb : base_stat ≤ 255) (hi : iv ≤ 255) (he : ev ≤ 255) :
    gba_calc_base_stat level base_stat iv ev ≤ 2111 := by
  rw [gba_calc_base_stat_eq level base_stat iv ev hl hb hi he]
  have hsum : 2 * base_stat + iv + ev / 4 ≤ 828 := by omega
  have hprod : (2 * base_stat + iv + ev / 4) * level ≤ 828 * 255 :=
    Nat.mul_le_mul hsum hl
  omega

theorem ceil_sqrt_le_256 (x : Nat) (hx : x ≤ 65535) : ceil_sqrt x ≤ 256 := by
  unfold ceil_sqrt
  apply Nat.find_min'
  omega

theorem ceil_sqrt_of_large (x : Nat) (hlo : 0xfe02 ≤ x) (hx : x ≤ 65535) :
    ceil_sqrt x = 256 := by
  unfold ceil_sqrt
  rw [Nat.find_eq_iff]
  refine ⟨by omega, ?_⟩
  intro c hc hle
  have hc255 : c ≤ 255 := by omega
  have hsq : c * c ≤ 255 * 255 := Nat.mul_le_mul hc255 hc255
  omega

theorem gb_calc_ev_loop_eq (x : Nat) (hx : x ≤ 255 * 255) :
    ∀ fuel b : Nat, b ≤ 255 → 256 ≤ fuel + b → (∀ c, c < b → c * c < x) →
      gb_calc_ev_loop fuel b x = some (ceil_sqrt x) := by
  intro fuel
  induction fuel with
  | zero => intro b hb hf _; omega
  | succ fuel ih =>
    intro b hb hf hmin
    unfold gb_calc_ev_loop
    by_cases hlt : b * b < x
    · rw [if_pos hlt]
      have hb254 : b ≤ 254 := by
        by_contra hcon
        have hb255 : b = 255 := by omega
        subst hb255
        omega
      have hwrap : u8 (b + 1) = b + 1 := by
        unfold u8
        apply Nat.mod_eq_of_lt
        omega
      rw [hwrap]
      apply ih (b + 1) (by omega) (by omega)
      intro c hc
      by_cases hcb : c = b
      · subst hcb; exact hlt
      · exact hmin c (by omega)
    · rw [if_neg hlt]
      congr 1
      symm
      unfold ceil_sqrt
      rw [Nat.find_eq_iff]
      refine ⟨by omega, ?_⟩
      intro c hc hle
      have := hmin c hc
      omega

theorem gb_calc_ev_eq (fuel x : Nat) (hf : 256 ≤ fuel) (hx : x ≤ 65535) :
    gb_calc_ev fuel x = some (ceil_sqrt x / 4) := by
  unfold gb_calc_ev
  by_cases hbig : x ≥ 0xfe02
  · rw [if_pos hbig, ceil_sqrt_of_large x hbig hx]
  · rw [if_neg hbig]
    rw [gb_calc_ev_loop_eq x (by omega) fuel 0 (by omega) (by omega)
      (by intro c hc; omega)]
    have h256 := ceil_sqrt_le_256 x hx
    simp only [Option.map_some', Nat.shiftRight_eq_div_pow, u8]
    congr 1
    apply Nat.mod_eq_of_lt
    omega

theorem gb_calc_base_stat_eq (fuel level base_stat iv stat_exp : Nat) (hf : 256 ≤ fuel)
    (hl : level ≤ 255) (hb : base_stat ≤ 255) (hi : iv ≤ 255) (hs : stat_exp ≤ 65535) :
    gb_calc_base_stat fuel level base_stat iv stat_exp
      = some (((base_stat + iv) * 2 + ceil_sqrt stat_exp / 4) * level / 100) := by
  have h256 := ceil_sqrt_le_256 stat_exp hs
  have hsum : (base_stat + iv) * 2 + ceil_sqrt stat_exp / 4 ≤ 1084 := by omega
  have hprod : ((base_stat + iv) * 2 + ceil_sqrt stat_exp / 4) * level ≤ 1084 * 255 :=
    Nat.mul_le_mul hsum hl
  have hshl : (base_stat + iv) <<< 1 = (base_stat + iv) * 2 := by
    rw [Nat.shiftLeft_eq]
  unfold gb_calc_base_stat
  rw [gb_calc_ev_eq fuel stat_exp hf hs]
  simp only [Option.map_some', u16, u32]
  congr 1
  rw [Nat.mod_eq_of_lt (by omega : base_stat + iv < 2 ^ 32), hshl]
  rw [Nat.mod_eq_of_lt (by omega : (base_stat + iv) * 2 < 2 ^ 32)]
  rw [Nat.mod_eq_of_lt
    (by omega : (base_stat + iv) * 2 + ceil_sqrt stat_exp / 4 < 2 ^ 32)]
  rw [Nat.mod_eq_of_lt
    (by omega : ((base_stat + iv) * 2 + ceil_sqrt stat_exp / 4) * level < 2 ^ 32)]
  apply Nat.mod_eq_of_lt
  omega

theorem gb_calc_base_stat_formula_le (level base_stat iv stat_exp : Nat)
    (hl : level ≤ 255) (hb : base_stat ≤ 255) (hi : iv ≤ 255) (hs : stat_exp ≤ 65535) :
    ((base_stat + iv) * 2 + ceil_sqrt stat_exp / 4) * level / 100 ≤ 2764 := by
  have h256 := ceil_sqrt_le_256 stat_exp hs
  have hsum : (base_stat + iv) * 2 + ceil_sqrt stat_exp / 4 ≤ 1084 := by omega
  have hprod : ((base_stat + iv) * 2 + ceil_sqrt stat_exp / 4) * level ≤ 1084 * 255 :=
    Nat.mul_le_mul hsum hl
  omega

/-! ## Stat formulas (`stat.c`) -/

/-- C1: for 8-bit `level`, `base_stat`, `iv` and `ev`, `gba_calc_hp_stat` equals
`floor((2*base_stat + iv + floor(ev/4)) * level / 100) + level + 10` over the
natural numbers; neither the 32-bit intermediate nor the 16-bit result wraps. -/
theorem gba_calc_hp_stat_formula (level base_stat iv ev : Nat)
    (hl : level ≤ 255) (hb : base_stat ≤ 255) (hi : iv ≤ 255) (he : ev ≤ 255) :
    gba_calc_hp_stat level base_stat iv ev
      = (2 * base_stat + iv + ev / 4) * level / 100 + level + 10 := by
  have hle := gba_calc_base_stat_le level base_stat iv ev hl hb hi he
  unfold gba_calc_hp_stat u16
  rw [Nat.mod_eq_of_lt (by omega)]
  rw [gba_calc_base_stat_eq level base_stat iv ev hl hb hi he]

theorem gba_calc_hp_stat_formula_witness :
    gba_calc_hp_stat 100 255 31 252
      = (2 * 255 + 31 + 252 / 4) * 100 / 100 + 100 + 10 :=
  gba_calc_hp_stat_formula 100 255 31 252 (by decide) (by decide) (by decide) (by decide)

/-- C2 (as the specification states it, refuted): `gba_calc_hp_stat(50, 100, 31, 0)`
is not 152. -/
theorem gba_calc_hp_stat_example_ne_152 : gba_calc_hp_stat 50 100 31 0 ≠ 152 := by
  decide

/-- C2 (amended): `gba_calc_hp_stat(level=50, base_stat=100, iv=31, ev=0)` returns
175, the value of `floor((2*100 + 31 + floor(0/4)) * 50 / 100) + 50 + 10`. -/
theorem gba_calc_hp_stat_example :
    gba_calc_hp_stat 50 100 31 0 = 175
      ∧ (2 * 100 + 31 + 0 / 4) * 50 / 100 + 50 + 10 = 175 := by
  decide

/-- C3: for 8-bit `level`, `base_stat`, `iv`, `ev` and a nature that is neither
`STAT_NATURE_POSITIVE` nor `STAT_NATURE_NEGATIVE`, `gba_calc_stat` equals
`floor(((base_stat * 2) + iv + floor(ev / 4)) * level / 100) + 5`. -/
theorem gba_calc_stat_neutral (level base_stat iv ev : Nat) (nature : stat_nature_t)
    (hl : level ≤ 255) (hb : base_stat ≤ 255) (hi : iv ≤ 255) (he : ev ≤ 255)
    (hpos : nature ≠ STAT_NATURE_POSITIVE) (hneg : nature ≠ STAT_NATURE_NEGATIVE) :
    gba_calc_stat level base_stat iv ev nature
      = (base_stat * 2 + iv + ev / 4) * level / 100 + 5 := by
  have hle := gba_calc_base_stat_le level base_stat iv ev hl hb hi he
  unfold gba_calc_stat
  simp only [if_neg hpos, if_neg hneg]
  unfold u16 u32
  rw [Nat.mod_eq_of_lt (by omega), Nat.mod_eq_of_lt (by omega)]
  rw [gba_calc_base_stat_eq level base_stat iv ev hl hb hi he, Nat.mul_comm base_stat 2]

theorem gba_calc_stat_neutral_witness :
    gba_calc_stat 50 100 31 252 (other 0) = (100 * 2 + 31 + 252 / 4) * 50 / 100 + 5 :=
  gba_calc_stat_neutral 50 100 31 252 (other 0) (by decide) (by decide) (by decide)
    (by decide) (by decide) (by decide)

/-- C4 (the code at a failing input): with `N = 120` the neutral value at
`level = 50`, `base_stat = 100`, `iv = 31`, `ev = 0`, the published formula gives
`floor(N * 110 / 100) = 132` for a beneficial nature and `floor(N * 90 / 100) = 108`
for a hindering one; `gba_calc_stat` returns 108 for `STAT_NATURE_POSITIVE` and
132 for `STAT_NATURE_NEGATIVE`, the two factors being exchanged. -/
theorem gba_calc_stat_nature_factors_exchanged :
    gba_calc_stat 50 100 31 0 (other 0) = 120
      ∧ gba_calc_stat 50 100 31 0 STAT_NATURE_POSITIVE = 108
      ∧ 120 * 110 / 100 = 132
      ∧ gba_calc_stat 50 100 31 0 STAT_NATURE_NEGATIVE = 132
      ∧ 120 * 90 / 100 = 108 := by
  decide

/-- C5: for 8-bit `level`, `base_stat`, `iv` and 16-bit `stat_exp`, `gb_calc_stat`
returns (given fuel for the 256 possible loop tests)
`floor((((base_stat + iv) * 2 + floor(ceil(sqrt(stat_exp)) / 4)) * level) / 100) + 5`,
where `ceil(sqrt(x))` is the least `b` with `b * b ≥ x`. -/
theorem gb_calc_stat_formula (fuel level base_stat iv stat_exp : Nat) (hf : 256 ≤ fuel)
    (hl : level ≤ 255) (hb : base_stat ≤ 255) (hi : iv ≤ 255) (hs : stat_exp ≤ 65535) :
    gb_calc_stat fuel level base_stat iv stat_exp
      = some (((base_stat + iv) * 2 + ceil_sqrt stat_exp / 4) * level / 100 + 5) := by
  have hle := gb_calc_base_stat_formula_le level base_stat iv stat_exp hl hb hi hs
  unfold gb_calc_stat
  rw [gb_calc_base_stat_eq fuel level base_stat iv stat_exp hf hl hb hi hs]
  simp only [Option.map_some', u16]
  congr 1
  apply Nat.mod_eq_of_lt
  omega

theorem gb_calc_stat_formula_witness :
    gb_calc_stat 256 50 100 15 1000
      = some (((100 + 15) * 2 + ceil_sqrt 1000 / 4) * 50 / 100 + 5) :=
  gb_calc_stat_formula 256 50 100 15 1000 (by decide) (by decide) (by decide)
    (by decide) (by decide)

/-- C6: for 8-bit `level`, `base_stat`, `iv` and 16-bit `stat_exp`, `gb_calc_hp_stat`
returns (given fuel for the 256 possible loop tests)
`floor((((base_stat + iv) * 2 + floor(ceil(sqrt(stat_exp)) / 4)) * level) / 100) + level + 10`,
where `ceil(sqrt(x))` is the least `b` with `b * b ≥ x`. -/
theorem gb_calc_hp_stat_formula (fuel level base_stat iv stat_exp : Nat) (hf : 256 ≤ fuel)
    (hl : level ≤ 255) (hb : base_stat ≤ 255) (hi : iv ≤ 255) (hs : stat_exp ≤ 65535) :
    gb_calc_hp_stat fuel level base_stat iv stat_exp
      = some (((base_stat + iv) * 2 + ceil_sqrt stat_exp / 4) * level / 100
          + level + 10) := by
  have hle := gb_calc_base_stat_formula_le level base_stat iv stat_exp hl hb hi hs
  unfold gb_calc_hp_stat
  rw [gb_calc_base_stat_eq fuel level base_stat iv stat_exp hf hl hb hi hs]
  simp only [Option.map_some', u16]
  congr 1
  apply Nat.mod_eq_of_lt
  omega

theorem gb_calc_hp_stat_formula_witness :
    gb_calc_hp_stat 256 255 255 15 65535
      = some (((255 + 15) * 2 + ceil_sqrt 65535 / 4) * 255 / 100 + 255 + 10) :=
  gb_calc_hp_stat_formula 256 255 255 15 65535 (by decide) (by decide) (by decide)
    (by decide) (by decide)

/-- C7: the generation-4 and generation-5 non-HP stat functions agree with the
generation-3 one on all arguments: `nds_calc_stat = dsi_calc_stat = gba_calc_stat`. -/
theorem nds_dsi_calc_stat_eq_gba (level base_stat iv ev : Nat) (nature : stat_nature_t) :
    nds_calc_stat level base_stat iv ev nature = dsi_calc_stat level base_stat iv ev nature
      ∧ dsi_calc_stat level base_stat iv ev nature
          = gba_calc_stat level base_stat iv ev nature :=
  ⟨rfl, rfl⟩

/-- C8: the generation-4 and generation-5 HP stat functions agree with the
generation-3 one on all arguments:
`nds_calc_hp_stat = dsi_calc_hp_stat = gba_calc_hp_stat`. -/
theorem nds_dsi_calc_hp_stat_eq_gba (level base_stat iv ev : Nat) :
    nds_calc_hp_stat level base_stat iv ev = dsi_calc_hp_stat level base_stat iv ev
      ∧ dsi_calc_hp_stat level base_stat iv ev = gba_calc_hp_stat level base_stat iv ev :=
  ⟨rfl, rfl⟩

/-! ## Record sizes (`game_gba.h`) -/

/-- C9: the packed `pk3_box_t` record is exactly `PK3_BOX_SIZE = 0x50 = 80` bytes:
the header members (pid 4, ot_fid 4, nickname 10, language 1, flag byte 1,
ot_name 7, markings 1, checksum 2, padding 2 bytes) make 32 bytes and the data
payload is 4 blocks of `PK3_BLOCK_SIZE = 12` bytes, 48 bytes. -/
theorem pk3_box_t_size :
    sizeof pk3_box_t = PK3_BOX_SIZE ∧ PK3_BOX_SIZE = 0x50 ∧ PK3_BOX_SIZE = 80
      ∧ (members_of pk3_box_header).map member_bits
          = [4 * 8, 4 * 8, 10 * 8, 1 * 8, 1 * 8, 7 * 8, 1 * 8, 2 * 8, 2 * 8]
      ∧ sizeof pk3_box_header = 32
      ∧ PK3_BLOCK_SIZE = 12
      ∧ sizeof pk3_box_data = 4 * PK3_BLOCK_SIZE
      ∧ sizeof pk3_box_data = 48 := by
  decide

/-- C10: the packed party record `pk3_t` is exactly `PK3_PARTY_SIZE = 0x64 = 100`
bytes: the 80-byte `pk3_box_t` followed by `pk3_party_t`, whose members (status 1,
padding 3, level 1, pokerus_time 1, seven 16-bit stats 14 bytes) make 20 bytes. -/
theorem pk3_t_size :
    sizeof pk3_t = PK3_PARTY_SIZE ∧ PK3_PARTY_SIZE = 0x64 ∧ PK3_PARTY_SIZE = 100
      ∧ (members_of pk3_t).map member_bits = [80 * 8, 20 * 8]
      ∧ (members_of pk3_party_t).map member_bits = [1 * 8, 3 * 8, 1 * 8, 1 * 8, 14 * 8]
      ∧ (members_of pk3_stats_t).map member_bits = List.replicate 7 16
      ∧ sizeof pk3_party_t = 20 := by
  decide

/-! ## Lookup tables (`pokemon_data.h`) -/

set_option maxRecDepth 100000 in
/-- C11: the species table is directly indexable by species id: it has exactly 152
entries, `species[i].id = i` for every `i` in 0..151, entry 0 is the empty
sentinel (null names, all base stats 0) and every entry 1..151 has non-null
names. -/
theorem species_indexable :
    species.length = 152
      ∧ (∀ i : Fin 152, (species[i.val]?).map (fun e => e.id) = some i.val)
      ∧ species[0]? = some ⟨0, none, none, ⟨0, 0, 0, 0, 0, 0⟩⟩
      ∧ (∀ i : Fin 151, (species[i.val + 1]?).any
          (fun e => e.nameCaps.isSome && e.name.isSome) = true) := by
  decide

set_option maxRecDepth 100000 in
/-- C12: the moves table is directly indexable by move id: it has exactly 355
entries, `moves[i].id = i` for every `i` in 0..354, entry 0 is the empty move
(name "--", pp 0) and every entry 1..354 has `pp ≥ 1`. -/
theorem moves_indexable :
    moves.length = 355
      ∧ (∀ i : Fin 355, (moves[i.val]?).map (fun e => e.id) = some (i.val : Int))
      ∧ moves[0]? = some ⟨0, "--", 0⟩
      ∧ (∀ i : Fin 354, (moves[i.val + 1]?).any (fun e => decide (1 ≤ e.pp)) = true) := by
  decide

set_option maxRecDepth 100000 in
/-- C13: the items table is directly indexable by item index: it has exactly 377
entries and `items[i].id = i` for every `i` in 0..376, so no index is skipped or
repeated. -/
theorem items_indexable :
    items.length = 377
      ∧ (∀ i : Fin 377, (items[i.val]?).map (fun e => e.id) = some i.val) := by
  decide

set_option maxRecDepth 100000 in
/-- C14: the locations table is directly indexable by the 8-bit met-location id:
it has exactly 213 entries, `locations[i].id = i` for every `i` in 0..212, and
every id of the list `LOCATIONS` fits the `uint8_t` id field. -/
theorem locations_indexable :
    locations.length = 213
      ∧ (∀ i : Fin 213, (locations[i.val]?).map (fun e => e.id) = some i.val)
      ∧ LOCATIONS.all (fun r => decide (r.id < 2 ^ 8)) = true := by
  decide

/-- C15: the pockets label table agrees with the enumeration `gba_item_pocket_t`:
it has exactly 6 entries, `pockets[i].id = i` for `i` in 0..5, and the entries at
`GBA_ITEM_POCKET_PC`, `_ITEM`, `_KEYITEM`, `_BALL`, `_HMTM`, `_BERRY` are the PC
items, items, key items, poke balls, TM/HM and berries pockets. -/
theorem pockets_agree_with_enum :
    pockets.length = 6
      ∧ (∀ i : Fin 6, (pockets[i.val]?).map (fun e => e.id) = some i.val)
      ∧ [GBA_ITEM_POCKET_PC, GBA_ITEM_POCKET_ITEM, GBA_ITEM_POCKET_KEYITEM,
          GBA_ITEM_POCKET_BALL, GBA_ITEM_POCKET_HMTM, GBA_ITEM_POCKET_BERRY]
          = [0, 1, 2, 3, 4, 5]
      ∧ pockets[GBA_ITEM_POCKET_PC]? = some ⟨0, "PC Items"⟩
      ∧ pockets[GBA_ITEM_POCKET_ITEM]? = some ⟨1, "Items Pocket"⟩
      ∧ pockets[GBA_ITEM_POCKET_KEYITEM]? = some ⟨2, "Key Items Pocket"⟩
      ∧ pockets[GBA_ITEM_POCKET_BALL]? = some ⟨3, "Poké Balls Pocket"⟩
      ∧ pockets[GBA_ITEM_POCKET_HMTM]? = some ⟨4, "TM Case"⟩
      ∧ pockets[GBA_ITEM_POCKET_BERRY]? = some ⟨5, "Berries Pocket"⟩
      ∧ POCKETS.map (fun r => r.token)
          = ["PC_ITEMS", "ITEMS_POCKET", "KEY_ITEMS_POCKET", "POKE_BALLS_POCKET",
              "HM_TM_POCKET", "BERRY_POCKET"] := by
  decide

/-! ## Helper lemmas for the search loop, the shuffle and the text codec -/

theorem ceil_sqrt_spec (x : Nat) : x ≤ ceil_sqrt x * ceil_sqrt x := by
  unfold ceil_sqrt
  exact Nat.find_spec (⟨x, Nat.le_mul_self x⟩ : ∃ b, x ≤ b * b)

theorem ceil_sqrt_le_255 (x : Nat) (hx : x < 0xfe02) : ceil_sqrt x ≤ 255 := by
  unfold ceil_sqrt
  apply Nat.find_min'
  omega

theorem lt_ceil_sqrt_of_sq_lt (x b : Nat) (h : b * b < x) : b < ceil_sqrt x := by
  by_contra hcon
  have hle : ceil_sqrt x ≤ b := by omega
  have hsq : ceil_sqrt x * ceil_sqrt x ≤ b * b := Nat.mul_le_mul hle hle
  have := ceil_sqrt_spec x
  omega

theorem gb_calc_ev_loop_steps_eq (x : Nat) (hx : x ≤ 255 * 255) :
    ∀ fuel b steps : Nat, b ≤ 255 → 256 ≤ fuel + b → (∀ c, c < b → c * c < x) →
      gb_calc_ev_loop_steps fuel b steps x
        = some (ceil_sqrt x, steps + (ceil_sqrt x - b)) := by
  intro fuel
  induction fuel with
  | zero => intro b steps hb hf _; omega
  | succ fuel ih =>
    intro b steps hb hf hmin
    unfold gb_calc_ev_loop_steps
    by_cases hlt : b * b < x
    · rw [if_pos hlt]
      have hb254 : b ≤ 254 := by
        by_contra hcon
        have hb255 : b = 255 := by omega
        subst hb255
        omega
      have hwrap : u8 (b + 1) = b + 1 := by
        unfold u8
        apply Nat.mod_eq_of_lt
        omega
      have hbelow := lt_ceil_sqrt_of_sq_lt x b hlt
      rw [hwrap, ih (b + 1) (steps + 1) (by omega) (by omega)]
      · congr 2
        omega
      · intro c hc
        by_cases hcb : c = b
        · subst hcb; exact hlt
        · exact hmin c (by omega)
    · rw [if_neg hlt]
      have hfind : ceil_sqrt x = b := by
        unfold ceil_sqrt
        rw [Nat.find_eq_iff]
        refine ⟨by omega, ?_⟩
        intro c hc hle
        have := hmin c hc
        omega
      rw [hfind]
      simp

theorem xor_xor_cancel (a k : Nat) : (a ^^^ k) ^^^ k = a := by
  rw [Nat.xor_assoc, Nat.xor_self, Nat.xor_zero]

theorem gba_encode_unit_mapped (table : Nat → Option Nat) (placeholder c : Nat)
    (h : ∃ b, b < GBA_TEXT_TERMINATOR ∧ table b = some c) :
    gba_encode_unit table placeholder c < GBA_TEXT_TERMINATOR
      ∧ table (gba_encode_unit table placeholder c) = some c := by
  obtain ⟨b, hb, hbc⟩ := h
  unfold gba_encode_unit
  cases hfind : (List.range GBA_TEXT_TERMINATOR).find? (fun b => table b == some c) with
  | none =>
    rw [List.find?_eq_none] at hfind
    have := hfind b (List.mem_range.mpr hb)
    simp [hbc] at this
  | some b' =>
    have hmem := List.mem_of_find?_eq_some hfind
    have hp := List.find?_some hfind
    simp only [Option.getD_some]
    exact ⟨List.mem_range.mp hmem, by simpa using hp⟩

theorem gba_encode_unit_unmapped (table : Nat → Option Nat) (placeholder c : Nat)
    (h : ∀ b, b < GBA_TEXT_TERMINATOR → table b ≠ some c) :
    gba_encode_unit table placeholder c = placeholder := by
  unfold gba_encode_unit
  have hnone : (List.range GBA_TEXT_TERMINATOR).find? (fun b => table b == some c) = none := by
    rw [List.find?_eq_none]
    intro b hb
    have := h b (List.mem_range.mp hb)
    simpa using this
  rw [hnone]
  rfl

theorem gba_text_to_ucs2_terminators (table : Nat → Option Nat) (placeholder : Nat) :
    ∀ size : Nat, gba_text_to_ucs2 table placeholder
      (List.replicate size GBA_TEXT_TERMINATOR) size = List.replicate size 0 := by
  intro size
  cases size with
  | zero => simp [gba_text_to_ucs2]
  | succ n => simp [List.replicate_succ, gba_text_to_ucs2]

theorem gba_text_decode_encode (table : Nat → Option Nat) (ph_byte ph_unit : Nat) :
    ∀ (s : List Nat) (size : Nat),
      (∀ c ∈ s, ∃ b, b < GBA_TEXT_TERMINATOR ∧ table b = some c) →
      gba_text_to_ucs2 table ph_unit (ucs2_to_gba_text table ph_byte s size) size
        = s.take size ++ List.replicate (size - s.length) 0 := by
  intro s
  induction s with
  | nil =>
    intro size _
    cases size with
    | zero => simp [ucs2_to_gba_text, gba_text_to_ucs2]
    | succ n =>
      have h := gba_text_to_ucs2_terminators table ph_unit (n + 1)
      simpa [ucs2_to_gba_text] using h
  | cons c s ih =>
    intro size hs
    cases size with
    | zero => simp [ucs2_to_gba_text, gba_text_to_ucs2]
    | succ n =>
      have hc := gba_encode_unit_mapped table ph_byte c (hs c (List.mem_cons_self c s))
      have hrest := ih n (fun d hd => hs d (List.mem_cons_of_mem c hd))
      have hne : gba_encode_unit table ph_byte c ≠ GBA_TEXT_TERMINATOR := by omega
      simp only [ucs2_to_gba_text, gba_text_to_ucs2, if_neg hne, gba_decode_byte, hc.2,
        Option.getD_some, hrest, List.take_succ_cons, List.length_cons, List.cons_append,
        Nat.add_sub_add_right]

theorem ucs2_to_gba_text_length (table : Nat → Option Nat) (placeholder : Nat) :
    ∀ (src : List Nat) (size : Nat),
      (ucs2_to_gba_text table placeholder src size).length = size := by
  intro src
  induction src with
  | nil =>
    intro size
    cases size with
    | zero => simp [ucs2_to_gba_text]
    | succ n => simp [ucs2_to_gba_text]
  | cons c rest ih =>
    intro size
    cases size with
    | zero => simp [ucs2_to_gba_text]
    | succ n => simp [ucs2_to_gba_text, ih n]

theorem gba_text_to_ucs2_length (table : Nat → Option Nat) (placeholder : Nat) :
    ∀ (src : List Nat) (size : Nat),
      (gba_text_to_ucs2 table placeholder src size).length = size := by
  intro src
  induction src with
  | nil =>
    intro size
    cases size with
    | zero => simp [gba_text_to_ucs2]
    | succ n => simp [gba_text_to_ucs2]
  | cons b rest ih =>
    intro size
    cases size with
    | zero => simp [gba_text_to_ucs2]
    | succ n =>
      by_cases hb : b = GBA_TEXT_TERMINATOR
      · simp [gba_text_to_ucs2, hb]
      · simp [gba_text_to_ucs2, hb, ih n]

theorem ucs2_to_gba_text_at (table : Nat → Option Nat) (placeholder : Nat) :
    ∀ (src : List Nat) (size i c : Nat), i < size → src[i]? = some c →
      (ucs2_to_gba_text table placeholder src size)[i]?
        = some (gba_encode_unit table placeholder c) := by
  intro src
  induction src with
  | nil =>
    intro size i c _ hget
    simp at hget
  | cons c0 rest ih =>
    intro size i c hi hget
    cases size with
    | zero => omega
    | succ n =>
      cases i with
      | zero =>
        simp only [List.getElem?_cons_zero, Option.some.injEq] at hget
        subst hget
        simp [ucs2_to_gba_text]
      | succ j =>
        simp only [List.getElem?_cons_succ] at hget
        simp only [ucs2_to_gba_text, List.getElem?_cons_succ]
        exact ih n j c (by omega) hget

theorem gba_text_to_ucs2_at (table : Nat → Option Nat) (placeholder : Nat) :
    ∀ (src : List Nat) (size i b : Nat), i < size → src[i]? = some b →
      (∀ j, j ≤ i → src[j]? ≠ some GBA_TEXT_TERMINATOR) →
      (gba_text_to_ucs2 table placeholder src size)[i]?
        = some (gba_decode_byte table placeholder b) := by
  intro src
  induction src with
  | nil =>
    intro size i b _ hget _
    simp at hget
  | cons b0 rest ih =>
    intro size i b hi hget hterm
    have hb0 : b0 ≠ GBA_TEXT_TERMINATOR := by
      have := hterm 0 (Nat.zero_le i)
      simpa using this
    cases size with
    | zero => omega
    | succ n =>
      cases i with
      | zero =>
        simp only [List.getElem?_cons_zero, Option.some.injEq] at hget
        subst hget
        simp [gba_text_to_ucs2, hb0]
      | succ j =>
        simp only [List.getElem?_cons_succ] at hget
        simp only [gba_text_to_ucs2, if_neg hb0, List.getElem?_cons_succ]
        apply ih n j b (by omega) hget
        intro k hk
        have := hterm (k + 1) (by omega)
        simpa using this

/-! ## Block shuffle and text codec (modelled from the specification) -/

/-- C16: for every `pk3_box_t` record (so for all 24 block orders selected by
`pid % 24` and every key `pid XOR ot_fid`), `pk3_decrypt` applied after
`pk3_encrypt` returns the original record. -/
theorem pk3_decrypt_encrypt (r : pk3_record) : pk3_decrypt (pk3_encrypt r) = r := by
  obtain ⟨pid, ot_id, ot_sid, rest, b0, b1, b2, b3⟩ := r
  obtain ⟨a0, a1, a2⟩ := b0
  obtain ⟨c0, c1, c2⟩ := b1
  obtain ⟨d0, d1, d2⟩ := b2
  obtain ⟨e0, e1, e2⟩ := b3
  have h : pid % 24 < 24 := Nat.mod_lt _ (by decide)
  simp only [pk3_decrypt, pk3_encrypt, pk3_mask, pk3_shuffle, pk3_unshuffle, pk3_set_blocks,
    pk3_order, pk3_key, pk3_mask_block]
  generalize pid % 24 = s at h
  interval_cases s <;>
    simp [pk3_block_orders, pk3_get_block, xor_xor_cancel, List.indexOf, List.findIdx,
      List.findIdx.go]

/-- C17: for every sequence `s` of representable code units (each the image of a
byte below the terminator) and every slot length, `gba_text_to_ucs2` applied to
the output of `ucs2_to_gba_text` on `s` yields `s` truncated or zero-padded to
the slot length. Unmapped inputs map to a stable placeholder: in any input
sequence, `ucs2_to_gba_text` writes the placeholder glyph at the slot of every
code unit that no byte maps to (and a byte mapping to the code unit at every
other slot), and `gba_text_to_ucs2` writes the placeholder code unit at the slot
of every byte without mapping that precedes the terminator (and the mapped code
unit at every other such slot); both always fill exactly the slot length. -/
theorem gba_text_round_trip (table : Nat → Option Nat) (ph_byte ph_unit : Nat)
    (s : List Nat) (size : Nat)
    (hs : ∀ c ∈ s, ∃ b, b < GBA_TEXT_TERMINATOR ∧ table b = some c) :
    gba_text_to_ucs2 table ph_unit (ucs2_to_gba_text table ph_byte s size) size
        = s.take size ++ List.replicate (size - s.length) 0
      ∧ (∀ (src : List Nat) (n i c : Nat), i < n → src[i]? = some c →
          (∀ b, b < GBA_TEXT_TERMINATOR → table b ≠ some c) →
          (ucs2_to_gba_text table ph_byte src n)[i]? = some ph_byte)
      ∧ (∀ (src : List Nat) (n i c : Nat), i < n → src[i]? = some c →
          (∃ b, b < GBA_TEXT_TERMINATOR ∧ table b = some c) →
          ∃ b, b < GBA_TEXT_TERMINATOR ∧ table b = some c
            ∧ (ucs2_to_gba_text table ph_byte src n)[i]? = some b)
      ∧ (∀ (src : List Nat) (n i b : Nat), i < n → src[i]? = some b →
          (∀ j, j ≤ i → src[j]? ≠ some GBA_TEXT_TERMINATOR) → table b = none →
          (gba_text_to_ucs2 table ph_unit src n)[i]? = some ph_unit)
      ∧ (∀ (src : List Nat) (n i b c : Nat), i < n → src[i]? = some b →
          (∀ j, j ≤ i → src[j]? ≠ some GBA_TEXT_TERMINATOR) → table b = some c →
          (gba_text_to_ucs2 table ph_unit src n)[i]? = some c)
      ∧ (∀ (src : List Nat) (n : Nat),
          (ucs2_to_gba_text table ph_byte src n).length = n
            ∧ (gba_text_to_ucs2 table ph_unit src n).length = n) := by
  refine ⟨gba_text_decode_encode table ph_byte ph_unit s size hs, ?_, ?_, ?_, ?_, ?_⟩
  · intro src n i c hi hget hun
    rw [ucs2_to_gba_text_at table ph_byte src n i c hi hget,
      gba_encode_unit_unmapped table ph_byte c hun]
  · intro src n i c hi hget hmap
    have hc := gba_encode_unit_mapped table ph_byte c hmap
    exact ⟨gba_encode_unit table ph_byte c, hc.1, hc.2,
      ucs2_to_gba_text_at table ph_byte src n i c hi hget⟩
  · intro src n i b hi hget hterm hun
    rw [gba_text_to_ucs2_at table ph_unit src n i b hi hget hterm]
    simp [gba_decode_byte, hun]
  · intro src n i b c hi hget hterm hmap
    rw [gba_text_to_ucs2_at table ph_unit src n i b hi hget hterm]
    simp [gba_decode_byte, hmap]
  · intro src n
    exact ⟨ucs2_to_gba_text_length table ph_byte src n,
      gba_text_to_ucs2_length table ph_unit src n⟩

theorem gba_text_round_trip_witness :
    gba_text_to_ucs2 gba_upper_case_table 63
        (ucs2_to_gba_text gba_upper_case_table 0xAC [83, 65, 73, 71, 69] 7) 7
        = [83, 65, 73, 71, 69].take 7 ++ List.replicate (7 - [83, 65, 73, 71, 69].length) 0
      ∧ (∀ (src : List Nat) (n i c : Nat), i < n → src[i]? = some c →
          (∀ b, b < GBA_TEXT_TERMINATOR → gba_upper_case_table b ≠ some c) →
          (ucs2_to_gba_text gba_upper_case_table 0xAC src n)[i]? = some 0xAC)
      ∧ (∀ (src : List Nat) (n i c : Nat), i < n → src[i]? = some c →
          (∃ b, b < GBA_TEXT_TERMINATOR ∧ gba_upper_case_table b = some c) →
          ∃ b, b < GBA_TEXT_TERMINATOR ∧ gba_upper_case_table b = some c
            ∧ (ucs2_to_gba_text gba_upper_case_table 0xAC src n)[i]? = some b)
      ∧ (∀ (src : List Nat) (n i b : Nat), i < n → src[i]? = some b →
          (∀ j, j ≤ i → src[j]? ≠ some GBA_TEXT_TERMINATOR) →
          gba_upper_case_table b = none →
          (gba_text_to_ucs2 gba_upper_case_table 63 src n)[i]? = some 63)
      ∧ (∀ (src : List Nat) (n i b c : Nat), i < n → src[i]? = some b →
          (∀ j, j ≤ i → src[j]? ≠ some GBA_TEXT_TERMINATOR) →
          gba_upper_case_table b = some c →
          (gba_text_to_ucs2 gba_upper_case_table 63 src n)[i]? = some c)
      ∧ (∀ (src : List Nat) (n : Nat),
          (ucs2_to_gba_text gba_upper_case_table 0xAC src n).length = n
            ∧ (gba_text_to_ucs2 gba_upper_case_table 63 src n).length = n) :=
  gba_text_round_trip gba_upper_case_table 0xAC 63 [83, 65, 73, 71, 69] 7 (by
    intro c hc
    simp only [List.mem_cons, List.mem_singleton, List.not_mem_nil, or_false] at hc
    rcases hc with rfl | rfl | rfl | rfl | rfl
    · exact ⟨0xCD, by decide, by decide⟩
    · exact ⟨0xBB, by decide, by decide⟩
    · exact ⟨0xC3, by decide, by decide⟩
    · exact ⟨0xC1, by decide, by decide⟩
    · exact ⟨0xBF, by decide, by decide⟩)

/-! ## Nature ordering and the search loop (`stat.c`) -/

/-- C18 (the code at a failing input): at `level = 50`, `base_stat = 100`,
`iv = 31`, `ev = 0` the value of `gba_calc_stat` for `STAT_NATURE_POSITIVE` (108)
is below the neutral value (120), which is below the value for
`STAT_NATURE_NEGATIVE` (132): the order the claim asks for is reversed. -/
theorem gba_calc_stat_nature_order_reversed :
    gba_calc_stat 50 100 31 0 STAT_NATURE_POSITIVE < gba_calc_stat 50 100 31 0 (other 0)
      ∧ gba_calc_stat 50 100 31 0 (other 0) < gba_calc_stat 50 100 31 0 STAT_NATURE_NEGATIVE
      ∧ gba_calc_stat 50 100 31 0 STAT_NATURE_POSITIVE = 108
      ∧ gba_calc_stat 50 100 31 0 STAT_NATURE_NEGATIVE = 132 := by
  decide

/-- C19: for every 16-bit `stat_exp`, `gb_calc_ev` returns (given fuel for the 256
possible loop tests) `floor(ceil(sqrt(stat_exp)) / 4)` with `ceil(sqrt(x))` the
least `b` with `b * b ≥ x`; the early-return value 64 for `stat_exp >= 0xfe02`
agrees with that formula, and the result is 64 exactly when `stat_exp >= 0xfe02`
and at most 63 otherwise. -/
theorem gb_calc_ev_formula (fuel stat_exp : Nat) (hf : 256 ≤ fuel) (hs : stat_exp ≤ 65535) :
    gb_calc_ev fuel stat_exp = some (ceil_sqrt stat_exp / 4)
      ∧ (0xfe02 ≤ stat_exp → ceil_sqrt stat_exp / 4 = 64)
      ∧ (gb_calc_ev fuel stat_exp = some 64 ↔ 0xfe02 ≤ stat_exp)
      ∧ (stat_exp < 0xfe02 → ∃ e, gb_calc_ev fuel stat_exp = some e ∧ e ≤ 63) := by
  have heq := gb_calc_ev_eq fuel stat_exp hf hs
  have hsmall : stat_exp < 0xfe02 → ceil_sqrt stat_exp / 4 ≤ 63 := by
    intro hlt
    have := ceil_sqrt_le_255 stat_exp hlt
    omega
  have hlarge : 0xfe02 ≤ stat_exp → ceil_sqrt stat_exp / 4 = 64 := by
    intro hge
    rw [ceil_sqrt_of_large stat_exp hge hs]
  refine ⟨heq, hlarge, ?_, ?_⟩
  · rw [heq]
    constructor
    · intro h64
      have h64' : ceil_sqrt stat_exp / 4 = 64 := Option.some.inj h64
      by_contra hcon
      have := hsmall (by omega)
      omega
    · intro hge
      rw [hlarge hge]
  · intro hlt
    exact ⟨ceil_sqrt stat_exp / 4, heq, hsmall hlt⟩

theorem gb_calc_ev_formula_witness :
    gb_calc_ev 256 65025 = some (ceil_sqrt 65025 / 4)
      ∧ (0xfe02 ≤ 65025 → ceil_sqrt 65025 / 4 = 64)
      ∧ (gb_calc_ev 256 65025 = some 64 ↔ 0xfe02 ≤ 65025)
      ∧ (65025 < 0xfe02 → ∃ e, gb_calc_ev 256 65025 = some e ∧ e ≤ 63) :=
  gb_calc_ev_formula 256 65025 (by decide) (by decide)

/-- C20: the search loop of `gb_calc_ev` terminates for every 16-bit `stat_exp`:
`gb_calc_ev` returns a value, and whenever the loop is entered
(`stat_exp < 0xfe02`) the counter stops at some `b ≤ 255` with
`b * b ≥ stat_exp` after exactly `b`, so at most 255, increments; the 8-bit
counter never wraps around. -/
theorem gb_calc_ev_loop_terminates (fuel stat_exp : Nat) (hf : 256 ≤ fuel)
    (hs : stat_exp ≤ 65535) :
    (gb_calc_ev fuel stat_exp).isSome = true
      ∧ (stat_exp < 0xfe02 → ∃ b, gb_calc_ev_loop_steps fuel 0 0 stat_exp = some (b, b)
          ∧ gb_calc_ev_loop fuel 0 stat_exp = some b
          ∧ b ≤ 255 ∧ stat_exp ≤ b * b) := by
  constructor
  · rw [gb_calc_ev_eq fuel stat_exp hf hs]
    rfl
  · intro hlt
    refine ⟨ceil_sqrt stat_exp, ?_, ?_, ceil_sqrt_le_255 stat_exp hlt, ceil_sqrt_spec stat_exp⟩
    · have h := gb_calc_ev_loop_steps_eq stat_exp (by omega) fuel 0 0 (by omega) (by omega)
        (by intro c hc; omega)
      simpa using h
    · exact gb_calc_ev_loop_eq stat_exp (by omega) fuel 0 (by omega) (by omega)
        (by intro c hc; omega)

theorem gb_calc_ev_loop_terminates_witness :
    (gb_calc_ev 256 65025).isSome = true
      ∧ (65025 < 0xfe02 → ∃ b, gb_calc_ev_loop_steps 256 0 0 65025 = some (b, b)
          ∧ gb_calc_ev_loop 256 0 65025 = some b
          ∧ b ≤ 255 ∧ 65025 ≤ b * b) :=
  gb_calc_ev_loop_terminates 256 65025 (by decide) (by decide)

/-! ## Helper lemmas on the generation-3 formulas -/

theorem gba_calc_hp_stat_unwrap (level base_stat iv ev : Nat)
    (hl : level ≤ 255) (hb : base_stat ≤ 255) (hi : iv ≤ 255) (he : ev ≤ 255) :
    gba_calc_hp_stat level base_stat iv ev
      = gba_calc_base_stat level base_stat iv ev + level + 10 := by
  have hle := gba_calc_base_stat_le level base_stat iv ev hl hb hi he
  unfold gba_calc_hp_stat u16
  apply Nat.mod_eq_of_lt
  omega

theorem gba_calc_stat_unwrap (level base_stat iv ev : Nat) (nature : stat_nature_t)
    (hl : level ≤ 255) (hb : base_stat ≤ 255) (hi : iv ≤ 255) (he : ev ≤ 255) :
    gba_calc_stat level base_stat iv ev nature
      = if nature = STAT_NATURE_POSITIVE then
          (gba_calc_base_stat level base_stat iv ev + 5) * 90 / 100
        else if nature = STAT_NATURE_NEGATIVE then
          (gba_calc_base_stat level base_stat iv ev + 5) * 110 / 100
        else gba_calc_base_stat level base_stat iv ev + 5 := by
  have hle := gba_calc_base_stat_le level base_stat iv ev hl hb hi he
  unfold gba_calc_stat
  generalize gba_calc_base_stat level base_stat iv ev = base at hle ⊢
  simp only [u16, u32]
  have h1 : (base + 5) % 2 ^ 32 = base + 5 := Nat.mod_eq_of_lt (by omega)
  have h2 : (base + 5) * 90 % 2 ^ 32 = (base + 5) * 90 := Nat.mod_eq_of_lt (by omega)
  have h3 : (base + 5) * 110 % 2 ^ 32 = (base + 5) * 110 := Nat.mod_eq_of_lt (by omega)
  rw [h1, h2, h3]
  split_ifs <;> (apply Nat.mod_eq_of_lt; omega)

theorem gba_calc_base_stat_mono (l1 b1 i1 e1 l2 b2 i2 e2 : Nat)
    (hl : l1 ≤ l2) (hb : b1 ≤ b2) (hi : i1 ≤ i2) (he : e1 ≤ e2)
    (hl2 : l2 ≤ 255) (hb2 : b2 ≤ 255) (hi2 : i2 ≤ 255) (he2 : e2 ≤ 255) :
    gba_calc_base_stat l1 b1 i1 e1 ≤ gba_calc_base_stat l2 b2 i2 e2 := by
  rw [gba_calc_base_stat_eq l1 b1 i1 e1 (by omega) (by omega) (by omega) (by omega),
    gba_calc_base_stat_eq l2 b2 i2 e2 hl2 hb2 hi2 he2]
  apply Nat.div_le_div_right
  apply Nat.mul_le_mul _ hl
  omega

theorem gba_calc_base_stat_ev_quarter (level base_stat iv ev1 ev2 : Nat)
    (h : ev1 / 4 = ev2 / 4) :
    gba_calc_base_stat level base_stat iv ev1 = gba_calc_base_stat level base_stat iv ev2 := by
  have h1 : ev1 >>> 2 = ev1 / 4 := by rw [Nat.shiftRight_eq_div_pow]
  have h2 : ev2 >>> 2 = ev2 / 4 := by rw [Nat.shiftRight_eq_div_pow]
  unfold gba_calc_base_stat
  rw [h1, h2, h]

theorem gba_calc_base_stat_level_zero (base_stat iv ev : Nat) :
    gba_calc_base_stat 0 base_stat iv ev = 0 := by
  simp [gba_calc_base_stat, u16, u32]

/-! ## Bounds and monotonicity (`stat.c`) -/

/-- C21: no stat function can overflow: for 8-bit `level`, `base_stat`, `iv`, `ev`,
16-bit `stat_exp` and every nature the 32-bit intermediate products stay below
`2 ^ 32`, each of `gb_calc_stat`, `gb_calc_hp_stat`, `gba_calc_stat` and
`gba_calc_hp_stat` returns the value of its formula over the natural numbers,
and that value is at most 3029, so the conversion to `uint16_t` never
truncates. -/
theorem stat_functions_no_overflow (fuel level base_stat iv ev stat_exp : Nat)
    (nature : stat_nature_t) (hf : 256 ≤ fuel)
    (hl : level ≤ 255) (hb : base_stat ≤ 255) (hi : iv ≤ 255) (he : ev ≤ 255)
    (hs : stat_exp ≤ 65535) :
    ((base_stat + iv) * 2 + ceil_sqrt stat_exp / 4) * level < 2 ^ 32
      ∧ (2 * base_stat + iv + ev / 4) * level < 2 ^ 32
      ∧ ((2 * base_stat + iv + ev / 4) * level / 100 + 5) * 110 < 2 ^ 32
      ∧ gb_calc_stat fuel level base_stat iv stat_exp
          = some (((base_stat + iv) * 2 + ceil_sqrt stat_exp / 4) * level / 100 + 5)
      ∧ ((base_stat + iv) * 2 + ceil_sqrt stat_exp / 4) * level / 100 + 5 ≤ 3029
      ∧ gb_calc_hp_stat fuel level base_stat iv stat_exp
          = some (((base_stat + iv) * 2 + ceil_sqrt stat_exp / 4) * level / 100 + level + 10)
      ∧ ((base_stat + iv) * 2 + ceil_sqrt stat_exp / 4) * level / 100 + level + 10 ≤ 3029
      ∧ gba_calc_stat level base_stat iv ev nature
          = (if nature = STAT_NATURE_POSITIVE then
              ((2 * base_stat + iv + ev / 4) * level / 100 + 5) * 90 / 100
            else if nature = STAT_NATURE_NEGATIVE then
              ((2 * base_stat + iv + ev / 4) * level / 100 + 5) * 110 / 100
            else (2 * base_stat + iv + ev / 4) * level / 100 + 5)
      ∧ gba_calc_stat level base_stat iv ev nature ≤ 3029
      ∧ gba_calc_hp_stat level base_stat iv ev
          = (2 * base_stat + iv + ev / 4) * level / 100 + level + 10
      ∧ gba_calc_hp_stat level base_stat iv ev ≤ 3029 := by
  have h256 := ceil_sqrt_le_256 stat_exp hs
  have hgbsum : (base_stat + iv) * 2 + ceil_sqrt stat_exp / 4 ≤ 1084 := by omega
  have hgbprod : ((base_stat + iv) * 2 + ceil_sqrt stat_exp / 4) * level ≤ 1084 * 255 :=
    Nat.mul_le_mul hgbsum hl
  have hgbasum : 2 * base_stat + iv + ev / 4 ≤ 828 := by omega
  have hgbaprod : (2 * base_stat + iv + ev / 4) * level ≤ 828 * 255 :=
    Nat.mul_le_mul hgbasum hl
  have hgb := gb_calc_base_stat_eq fuel level base_stat iv stat_exp hf hl hb hi hs
  have hgba := gba_calc_base_stat_eq level base_stat iv ev hl hb hi he
  have hstat := gba_calc_stat_unwrap level base_stat iv ev nature hl hb hi he
  have hhp := gba_calc_hp_stat_unwrap level base_stat iv ev hl hb hi he
  rw [hgba] at hstat hhp
  refine ⟨by omega, by omega, by omega, ?_, by omega, ?_, by omega, hstat, ?_, hhp, ?_⟩
  · unfold gb_calc_stat
    rw [hgb]
    simp only [Option.map_some', u16]
    congr 1
    apply Nat.mod_eq_of_lt
    omega
  · unfold gb_calc_hp_stat
    rw [hgb]
    simp only [Option.map_some', u16]
    congr 1
    apply Nat.mod_eq_of_lt
    omega
  · rw [hstat]
    split_ifs <;> omega
  · rw [hhp]
    omega

theorem stat_functions_no_overflow_witness :
    ((255 + 255) * 2 + ceil_sqrt 65535 / 4) * 255 < 2 ^ 32
      ∧ (2 * 255 + 255 + 255 / 4) * 255 < 2 ^ 32
      ∧ ((2 * 255 + 255 + 255 / 4) * 255 / 100 + 5) * 110 < 2 ^ 32
      ∧ gb_calc_stat 256 255 255 255 65535
          = some (((255 + 255) * 2 + ceil_sqrt 65535 / 4) * 255 / 100 + 5)
      ∧ ((255 + 255) * 2 + ceil_sqrt 65535 / 4) * 255 / 100 + 5 ≤ 3029
      ∧ gb_calc_hp_stat 256 255 255 255 65535
          = some (((255 + 255) * 2 + ceil_sqrt 65535 / 4) * 255 / 100 + 255 + 10)
      ∧ ((255 + 255) * 2 + ceil_sqrt 65535 / 4) * 255 / 100 + 255 + 10 ≤ 3029
      ∧ gba_calc_stat 255 255 255 255 STAT_NATURE_NEGATIVE
          = (if STAT_NATURE_NEGATIVE = STAT_NATURE_POSITIVE then
              ((2 * 255 + 255 + 255 / 4) * 255 / 100 + 5) * 90 / 100
            else if STAT_NATURE_NEGATIVE = STAT_NATURE_NEGATIVE then
              ((2 * 255 + 255 + 255 / 4) * 255 / 100 + 5) * 110 / 100
            else (2 * 255 + 255 + 255 / 4) * 255 / 100 + 5)
      ∧ gba_calc_stat 255 255 255 255 STAT_NATURE_NEGATIVE ≤ 3029
      ∧ gba_calc_hp_stat 255 255 255 255
          = (2 * 255 + 255 + 255 / 4) * 255 / 100 + 255 + 10
      ∧ gba_calc_hp_stat 255 255 255 255 ≤ 3029 :=
  stat_functions_no_overflow 256 255 255 255 255 65535 STAT_NATURE_NEGATIVE (by decide)
    (by decide) (by decide) (by decide) (by decide) (by decide)

/-- C22: for legal generation-3 inputs (`level ≤ 100`, `iv ≤ 31`, `base_stat` and
`ev` 8-bit) `gba_calc_hp_stat` is at most 714, and the bound is attained at
`level = 100`, `base_stat = 255`, `iv = 31`, `ev = 252`. -/
theorem gba_calc_hp_stat_le_714 (level base_stat iv ev : Nat)
    (hl : level ≤ 100) (hb : base_stat ≤ 255) (hi : iv ≤ 31) (he : ev ≤ 255) :
    gba_calc_hp_stat level base_stat iv ev ≤ 714
      ∧ gba_calc_hp_stat 100 255 31 252 = 714 := by
  refine ⟨?_, by decide⟩
  rw [gba_calc_hp_stat_unwrap level base_stat iv ev (by omega) hb (by omega) he,
    gba_calc_base_stat_eq level base_stat iv ev (by omega) hb (by omega) he]
  have hsum : 2 * base_stat + iv + ev / 4 ≤ 604 := by omega
  have hprod : (2 * base_stat + iv + ev / 4) * level ≤ 604 * 100 :=
    Nat.mul_le_mul hsum hl
  omega

theorem gba_calc_hp_stat_le_714_witness :
    gba_calc_hp_stat 100 255 31 255 ≤ 714 ∧ gba_calc_hp_stat 100 255 31 252 = 714 :=
  gba_calc_hp_stat_le_714 100 255 31 255 (by decide) (by decide) (by decide) (by decide)

/-- C23: `gba_calc_hp_stat` is monotone on 8-bit arguments: raising any one of
`level`, `base_stat`, `iv`, `ev` with the others fixed never lowers the result,
and raising `level` strictly raises it. -/
theorem gba_calc_hp_stat_monotone (level base_stat iv ev level2 base_stat2 iv2 ev2 : Nat)
    (hl : level2 ≤ 255) (hb : base_stat2 ≤ 255) (hi : iv2 ≤ 255) (he : ev2 ≤ 255) :
    (level ≤ level2 → base_stat ≤ 255 → iv ≤ 255 → ev ≤ 255 →
        gba_calc_hp_stat level base_stat iv ev ≤ gba_calc_hp_stat level2 base_stat iv ev)
      ∧ (level < level2 → base_stat ≤ 255 → iv ≤ 255 → ev ≤ 255 →
        gba_calc_hp_stat level base_stat iv ev < gba_calc_hp_stat level2 base_stat iv ev)
      ∧ (base_stat ≤ base_stat2 → level ≤ 255 → iv ≤ 255 → ev ≤ 255 →
        gba_calc_hp_stat level base_stat iv ev ≤ gba_calc_hp_stat level base_stat2 iv ev)
      ∧ (iv ≤ iv2 → level ≤ 255 → base_stat ≤ 255 → ev ≤ 255 →
        gba_calc_hp_stat level base_stat iv ev ≤ gba_calc_hp_stat level base_stat iv2 ev)
      ∧ (ev ≤ ev2 → level ≤ 255 → base_stat ≤ 255 → iv ≤ 255 →
        gba_calc_hp_stat level base_stat iv ev ≤ gba_calc_hp_stat level base_stat iv ev2) := by
  refine ⟨?_, ?_, ?_, ?_, ?_⟩
  · intro h hb1 hi1 he1
    have hm := gba_calc_base_stat_mono level base_stat iv ev level2 base_stat iv ev h
      (le_refl _) (le_refl _) (le_refl _) hl hb1 hi1 he1
    rw [gba_calc_hp_stat_unwrap level base_stat iv ev (by omega) hb1 hi1 he1,
      gba_calc_hp_stat_unwrap level2 base_stat iv ev hl hb1 hi1 he1]
    omega
  · intro h hb1 hi1 he1
    have hm := gba_calc_base_stat_mono level base_stat iv ev level2 base_stat iv ev
      (by omega) (le_refl _) (le_refl _) (le_refl _) hl hb1 hi1 he1
    rw [gba_calc_hp_stat_unwrap level base_stat iv ev (by omega) hb1 hi1 he1,
      gba_calc_hp_stat_unwrap level2 base_stat iv ev hl hb1 hi1 he1]
    omega
  · intro h hl1 hi1 he1
    have hm := gba_calc_base_stat_mono level base_stat iv ev level base_stat2 iv ev
      (le_refl _) h (le_refl _) (le_refl _) hl1 hb hi1 he1
    rw [gba_calc_hp_stat_unwrap level base_stat iv ev hl1 (by omega) hi1 he1,
      gba_calc_hp_stat_unwrap level base_stat2 iv ev hl1 hb hi1 he1]
    omega
  · intro h hl1 hb1 he1
    have hm := gba_calc_base_stat_mono level base_stat iv ev level base_stat iv2 ev
      (le_refl _) (le_refl _) h (le_refl _) hl1 hb1 hi he1
    rw [gba_calc_hp_stat_unwrap level base_stat iv ev hl1 hb1 (by omega) he1,
      gba_calc_hp_stat_unwrap level base_stat iv2 ev hl1 hb1 hi he1]
    omega
  · intro h hl1 hb1 hi1
    have hm := gba_calc_base_stat_mono level base_stat iv ev level base_stat iv ev2
      (le_refl _) (le_refl _) (le_refl _) h hl1 hb1 hi1 he
    rw [gba_calc_hp_stat_unwrap level base_stat iv ev hl1 hb1 hi1 (by omega),
      gba_calc_hp_stat_unwrap level base_stat iv ev2 hl1 hb1 hi1 he]
    omega

theorem gba_calc_hp_stat_monotone_witness :
    (50 ≤ 51 → 100 ≤ 255 → 31 ≤ 255 → 0 ≤ 255 →
        gba_calc_hp_stat 50 100 31 0 ≤ gba_calc_hp_stat 51 100 31 0)
      ∧ (50 < 51 → 100 ≤ 255 → 31 ≤ 255 → 0 ≤ 255 →
        gba_calc_hp_stat 50 100 31 0 < gba_calc_hp_stat 51 100 31 0)
      ∧ (100 ≤ 101 → 50 ≤ 255 → 31 ≤ 255 → 0 ≤ 255 →
        gba_calc_hp_stat 50 100 31 0 ≤ gba_calc_hp_stat 50 101 31 0)
      ∧ (31 ≤ 32 → 50 ≤ 255 → 100 ≤ 255 → 0 ≤ 255 →
        gba_calc_hp_stat 50 100 31 0 ≤ gba_calc_hp_stat 50 100 32 0)
      ∧ (0 ≤ 4 → 50 ≤ 255 → 100 ≤ 255 → 31 ≤ 255 →
        gba_calc_hp_stat 50 100 31 0 ≤ gba_calc_hp_stat 50 100 31 4) :=
  gba_calc_hp_stat_monotone 50 100 31 0 51 101 32 4 (by decide) (by decide) (by decide)
    (by decide)

/-- C24: for every fixed nature `gba_calc_stat` is monotone non-decreasing on
8-bit arguments: when none of `level`, `base_stat`, `iv`, `ev` is lowered the
result is not lowered; in particular this holds for each argument with the
others held fixed. -/
theorem gba_calc_stat_monotone (level base_stat iv ev level2 base_stat2 iv2 ev2 : Nat)
    (nature : stat_nature_t)
    (hl : level ≤ level2) (hb : base_stat ≤ base_stat2) (hi : iv ≤ iv2) (he : ev ≤ ev2)
    (hl2 : level2 ≤ 255) (hb2 : base_stat2 ≤ 255) (hi2 : iv2 ≤ 255) (he2 : ev2 ≤ 255) :
    gba_calc_stat level base_stat iv ev nature
      ≤ gba_calc_stat level2 base_stat2 iv2 ev2 nature := by
  have hm := gba_calc_base_stat_mono level base_stat iv ev level2 base_stat2 iv2 ev2
    hl hb hi he hl2 hb2 hi2 he2
  rw [gba_calc_stat_unwrap level base_stat iv ev nature (by omega) (by omega) (by omega)
      (by omega),
    gba_calc_stat_unwrap level2 base_stat2 iv2 ev2 nature hl2 hb2 hi2 he2]
  split_ifs <;> omega

theorem gba_calc_stat_monotone_witness :
    gba_calc_stat 50 100 31 0 STAT_NATURE_POSITIVE
      ≤ gba_calc_stat 50 100 31 4 STAT_NATURE_POSITIVE :=
  gba_calc_stat_monotone 50 100 31 0 50 100 31 4 STAT_NATURE_POSITIVE (by decide) (by decide)
    (by decide) (by decide) (by decide) (by decide) (by decide) (by decide)

/-- C25: effort values only count in steps of four: when
`floor(ev1/4) = floor(ev2/4)`, `gba_calc_stat` and `gba_calc_hp_stat` return the
same value for `ev1` as for `ev2`, whatever the level, base stat, IV and nature. -/
theorem gba_calc_stat_ev_steps_of_four (level base_stat iv ev1 ev2 : Nat)
    (nature : stat_nature_t) (h : ev1 / 4 = ev2 / 4) :
    gba_calc_stat level base_stat iv ev1 nature = gba_calc_stat level base_stat iv ev2 nature
      ∧ gba_calc_hp_stat level base_stat iv ev1 = gba_calc_hp_stat level base_stat iv ev2 := by
  have hbase := gba_calc_base_stat_ev_quarter level base_stat iv ev1 ev2 h
  unfold gba_calc_stat gba_calc_hp_stat
  rw [hbase]
  exact ⟨rfl, rfl⟩

theorem gba_calc_stat_ev_steps_of_four_witness :
    gba_calc_stat 100 255 31 252 STAT_NATURE_NEGATIVE
        = gba_calc_stat 100 255 31 255 STAT_NATURE_NEGATIVE
      ∧ gba_calc_hp_stat 100 255 31 252 = gba_calc_hp_stat 100 255 31 255 :=
  gba_calc_stat_ev_steps_of_four 100 255 31 252 255 STAT_NATURE_NEGATIVE (by decide)

/-- C26: at level 0 the base stat, IV and EV have no effect: for 8-bit arguments
`gba_calc_hp_stat(0, base_stat, iv, ev) = 10` and, for a nature that is neither
`STAT_NATURE_POSITIVE` nor `STAT_NATURE_NEGATIVE`,
`gba_calc_stat(0, base_stat, iv, ev, nature) = 5`; and for every level
`gba_calc_hp_stat(level, base_stat, iv, ev) ≥ level + 10`. -/
theorem gba_calc_stat_level_zero (level base_stat iv ev : Nat) (nature : stat_nature_t)
    (hl : level ≤ 255) (hb : base_stat ≤ 255) (hi : iv ≤ 255) (he : ev ≤ 255)
    (hpos : nature ≠ STAT_NATURE_POSITIVE) (hneg : nature ≠ STAT_NATURE_NEGATIVE) :
    gba_calc_hp_stat 0 base_stat iv ev = 10
      ∧ gba_calc_stat 0 base_stat iv ev nature = 5
      ∧ level + 10 ≤ gba_calc_hp_stat level base_stat iv ev := by
  refine ⟨?_, ?_, ?_⟩
  · rw [gba_calc_hp_stat_unwrap 0 base_stat iv ev (by omega) hb hi he,
      gba_calc_base_stat_level_zero]
  · rw [gba_calc_stat_unwrap 0 base_stat iv ev nature (by omega) hb hi he,
      gba_calc_base_stat_level_zero, if_neg hpos, if_neg hneg]
  · rw [gba_calc_hp_stat_unwrap level base_stat iv ev hl hb hi he]
    omega

theorem gba_calc_stat_level_zero_witness :
    gba_calc_hp_stat 0 255 31 252 = 10
      ∧ gba_calc_stat 0 255 31 252 (other 0) = 5
      ∧ 100 + 10 ≤ gba_calc_hp_stat 100 255 31 252 :=
  gba_calc_stat_level_zero 100 255 31 252 (other 0) (by decide) (by decide) (by decide)
    (by decide) (by decide) (by decide)

/-! ## Member offsets and bit ranges (`game_gba.h`) -/

/-- C27: in the packed `pk3_box_t` header the members start at bytes pid 0,
ot_fid 4 (ot_id 4, ot_sid 6), nickname 8, language 18, flag byte 19, ot_name 20,
markings 27, checksum 28 (and the unnamed padding at 30); the 48-byte data
payload begins at byte 32; no two header members overlap, the alternatives of
the ot_fid / (ot_id, ot_sid) union apart. -/
theorem pk3_box_header_offsets :
    struct_layout (members_of pk3_box_header) 0
        = [("pid", 0 * 8, 4 * 8), ("", 4 * 8, 4 * 8), ("nickname", 8 * 8, 10 * 8),
            ("language", 18 * 8, 1 * 8), ("", 19 * 8, 1 * 8), ("ot_name", 20 * 8, 7 * 8),
            ("markings", 27 * 8, 1 * 8), ("checksum", 28 * 8, 2 * 8), ("", 30 * 8, 2 * 8)]
      ∧ union_layout (members_of (nth_member_type pk3_box_header 1)) (4 * 8)
        = [("ot_fid", 4 * 8, 4 * 8), ("", 4 * 8, 4 * 8)]
      ∧ struct_layout
          (members_of (nth_member_type (nth_member_type pk3_box_header 1) 1)) (4 * 8)
        = [("ot_id", 4 * 8, 2 * 8), ("ot_sid", 6 * 8, 2 * 8)]
      ∧ (members_of (nth_member_type pk3_box_header 4)).map member_name
        = ["is_bad_egg", "has_species", "use_egg_name", ""]
      ∧ struct_layout (members_of pk3_box_t) 0 = [("", 0 * 8, 32 * 8), ("", 32 * 8, 48 * 8)]
      ∧ nth_member_type pk3_box_t 0 = pk3_box_header
      ∧ nth_member_type pk3_box_t 1 = pk3_box_data
      ∧ ranges_disjoint (struct_layout (members_of pk3_box_header) 0)
      ∧ ranges_disjoint (struct_layout
          (members_of (nth_member_type (nth_member_type pk3_box_header 1) 1)) (4 * 8)) := by
  and_intros <;> first | decide | rfl

/-- C28: each of the four named data blocks of `pk3_box_t` has declared member
widths summing to exactly `PK3_BLOCK_SIZE = 12` bytes (A: species, held_item,
exp, pp_up, friendship, 16 bits of padding; B: move[4], move_pp[4]; C: ev,
contest; D: pokerus, met_loc, 16-bit origin bit-fields, 32-bit IV word, 32-bit
ribbon word), so the named view and the raw `block[4][12]` view of the union
cover the same 48 bytes. -/
theorem pk3_blocks_size :
    PK3_BLOCK_SIZE = 12
      ∧ struct_layout (members_of pk3_block_a) 0
        = [("species", 0, 16), ("held_item", 16, 16), ("exp", 32, 32), ("pp_up", 64, 8),
            ("friendship", 72, 8), ("", 80, 16)]
      ∧ sizeof pk3_block_a = PK3_BLOCK_SIZE
      ∧ struct_layout (members_of pk3_block_b) 0 = [("move", 0, 4 * 16), ("move_pp", 64, 4 * 8)]
      ∧ sizeof pk3_block_b = PK3_BLOCK_SIZE
      ∧ struct_layout (members_of pk3_block_c) 0 = [("ev", 0, 48), ("contest", 48, 48)]
      ∧ sizeof pk3_block_c = PK3_BLOCK_SIZE
      ∧ struct_layout (members_of pk3_block_d) 0
        = [("pokerus", 0, 8), ("met_loc", 8, 8), ("", 16, 16), ("", 32, 32), ("ribbon", 64, 32)]
      ∧ sizeof pk3_block_d = PK3_BLOCK_SIZE
      ∧ (members_of pk3_box_data).map member_name = ["block", ""]
      ∧ (members_of (nth_member_type pk3_box_data 1)).map member_type
        = [pk3_block_a, pk3_block_b, pk3_block_c, pk3_block_d]
      ∧ union_layout (members_of pk3_box_data) 0 = [("block", 0, 48 * 8), ("", 0, 48 * 8)]
      ∧ struct_layout (members_of (nth_member_type pk3_box_data 1)) 0
        = [("", 0 * 96, 96), ("", 1 * 96, 96), ("", 2 * 96, 96), ("", 3 * 96, 96)] := by
  and_intros <;> first | decide | rfl

/-- C29: the sub-byte fields of block D have exact, non-overlapping bit ranges:
the origin word is level_met 7 + game 4 + pokeball 4 + is_ot_female 1 = 16 bits,
and in the 32-bit IV word the six 5-bit IVs (hp, atk, def, spd, satk, sdef)
occupy bits 0..29 while is_egg is bit 30 and ability is bit 31, so neither flag
overlaps any IV. -/
theorem pk3_block_d_bit_ranges :
    struct_layout (members_of (nth_member_type pk3_block_d 2)) 0
        = [("level_met", 0, 7), ("game", 7, 4), ("pokeball", 11, 4), ("is_ot_female", 15, 1)]
      ∧ 7 + 4 + 4 + 1 = 16
      ∧ sizeof (nth_member_type pk3_block_d 2) = 2
      ∧ ranges_disjoint (struct_layout (members_of (nth_member_type pk3_block_d 2)) 0)
      ∧ nth_member_type (nth_member_type pk3_block_d 3) 0 = pk3_genes_t
      ∧ sizeof (nth_member_type pk3_block_d 3) = 4
      ∧ struct_layout (members_of pk3_genes_t) 0
        = [("hp", 0, 5), ("atk", 5, 5), ("def", 10, 5), ("spd", 15, 5), ("satk", 20, 5),
            ("sdef", 25, 5), ("", 30, 2)]
      ∧ struct_layout (members_of (nth_member_type (nth_member_type pk3_block_d 3) 1)) 0
        = [("", 0, 30), ("is_egg", 30, 1), ("ability", 31, 1)]
      ∧ ranges_disjoint
          ((struct_layout (members_of pk3_genes_t) 0).take 6
            ++ (struct_layout
                (members_of (nth_member_type (nth_member_type pk3_block_d 3) 1)) 0).drop 1) := by
  and_intros <;> first | decide | rfl

/-! ## In-game-trade trainer names (`pokemon_data.h`) -/

/-- C30: each predefined in-game-trade trainer name (`elyssa`, `reyley`, `saige`)
is a well-formed GBA text slot: it has 7 bytes, contains the terminator byte
`0xFF`, and the bytes before the terminator are the GBA upper-case letter codes
(`0xBB` + position in the alphabet) spelling `"ELYSSA"`, `"REYLEY"`, `"SAIGE"`. -/
theorem trade_trainer_names_well_formed :
    elyssa.name.length = 7 ∧ GBA_TEXT_TERMINATOR ∈ elyssa.name
      ∧ elyssa.name.takeWhile (fun b => b != GBA_TEXT_TERMINATOR)
        = gba_upper_case_codes "ELYSSA"
      ∧ reyley.name.length = 7 ∧ GBA_TEXT_TERMINATOR ∈ reyley.name
      ∧ reyley.name.takeWhile (fun b => b != GBA_TEXT_TERMINATOR)
        = gba_upper_case_codes "REYLEY"
      ∧ saige.name.length = 7 ∧ GBA_TEXT_TERMINATOR ∈ saige.name
      ∧ saige.name.takeWhile (fun b => b != GBA_TEXT_TERMINATOR)
        = gba_upper_case_codes "SAIGE"
      ∧ GBA_TEXT_TERMINATOR = 0xFF
      ∧ gba_upper_case_codes "A" = [0xBB] := by
  decide

/-! ## PC storage size (`game_gba.h`) -/

/-- C31: the packed PC storage structure `gba_pc_t` occupies
`4 + GBA_BOX_COUNT * GBA_POKEMON_IN_BOX * PK3_BOX_SIZE
 + GBA_BOX_COUNT * GBA_BOX_NAME_LENGTH + GBA_BOX_COUNT = 4 + 14*30*80 + 14*9 + 14
 = 33744` bytes, which is less than `GBA_UNPACKED_SIZE` (`0xD900`), and two
unpacked slots (`2 * 0xD900`) fit in `GBA_SAVE_SIZE` (`0x20000`). -/
theorem gba_pc_t_size :
    sizeof gba_pc_t
        = 4 + GBA_BOX_COUNT * GBA_POKEMON_IN_BOX * PK3_BOX_SIZE
            + GBA_BOX_COUNT * GBA_BOX_NAME_LENGTH + GBA_BOX_COUNT
      ∧ 4 + GBA_BOX_COUNT * GBA_POKEMON_IN_BOX * PK3_BOX_SIZE
            + GBA_BOX_COUNT * GBA_BOX_NAME_LENGTH + GBA_BOX_COUNT
          = 4 + 14 * 30 * 80 + 14 * 9 + 14
      ∧ sizeof gba_pc_t = 33744
      ∧ struct_layout (members_of gba_pc_t) 0
          = [("current_box", 0 * 8, 4 * 8), ("box", 4 * 8, 14 * 30 * 80 * 8),
              ("name", (4 + 14 * 30 * 80) * 8, 14 * 9 * 8),
              ("wallpaper", (4 + 14 * 30 * 80 + 14 * 9) * 8, 14 * 8)]
      ∧ sizeof gba_pc_box_t = GBA_POKEMON_IN_BOX * PK3_BOX_SIZE
      ∧ GBA_UNPACKED_SIZE = 0xD900
      ∧ sizeof gba_pc_t < GBA_UNPACKED_SIZE
      ∧ GBA_SAVE_SIZE = 0x20000
      ∧ 2 * GBA_UNPACKED_SIZE ≤ GBA_SAVE_SIZE := by
  decide

end Libspec
